import Mathlib

/-!
Verification of the audit engine in `audit_application.py` (class
`ClinicalAppAuditor` plus the `main` iteration loop).

The Python source is shallowly embedded:
* the mutable `AuditResults` dataclass becomes an explicit state record that
  every check threads through (`_add_issue` appends to `issues`);
* Python floats in the pass-rate computation are modelled by `ℚ` (the values
  involved are exact decimal fractions);
* fallible operations (file reads, `json.load`, the `subprocess` call) are
  modelled by `Option`/`Except` values carried in the project snapshot, with
  the `except` branches of the source translated to the corresponding error
  cases;
* regular-expression searches from the source are implemented as executable
  character-list scanners mirroring the match semantics of each pattern.
-/

set_option maxRecDepth 10000

namespace Audit

/-- `Severity` enum from the source (`class Severity(Enum)`). -/
inductive Severity
  | CRITICAL
  | HIGH
  | MEDIUM
  | LOW
deriving DecidableEq, Repr

/-- `Issue` dataclass from the source. -/
structure Issue where
  file_path : String
  line_number : Nat
  severity : Severity
  category : String
  description : String
  fix_suggestion : String
  code_snippet : String := ""
deriving DecidableEq, Repr

/-- `AuditResults` dataclass from the source; `pass_rate` is a Python float,
modelled by `ℚ`. -/
structure AuditResults where
  issues : List Issue := []
  total_files_scanned : Nat := 0
  pass_rate : ℚ := 0
  critical_count : Nat := 0
  high_count : Nat := 0
  medium_count : Nat := 0
  low_count : Nat := 0
deriving DecidableEq, Repr

/-- The fresh `AuditResults()` object (all dataclass defaults). -/
def emptyResults : AuditResults := {}

/-- `_add_issue`: constructs an `Issue` and appends it to `results.issues`. -/
def addIssue (r : AuditResults) (fp : String) (ln : Nat) (sev : Severity)
    (cat desc fix : String) : AuditResults :=
  { r with issues := r.issues ++
      [{ file_path := fp, line_number := ln, severity := sev, category := cat,
         description := desc, fix_suggestion := fix, code_snippet := "" }] }

/-- Number of issues of a given severity in a list (the partition count the
spec calls `countsBySeverity`). -/
def countSeverity (sev : Severity) (l : List Issue) : Nat :=
  (l.filter (fun i => i.severity == sev)).length

/-- The severity-counting loop of `_calculate_results`
(`for issue in self.results.issues: ... += 1`).  Note it increments the
counts already stored in `r` without resetting them. -/
def tallySeverity (r : AuditResults) (l : List Issue) : AuditResults :=
  l.foldl (fun acc issue =>
    match issue.severity with
    | Severity.CRITICAL => { acc with critical_count := acc.critical_count + 1 }
    | Severity.HIGH => { acc with high_count := acc.high_count + 1 }
    | Severity.MEDIUM => { acc with medium_count := acc.medium_count + 1 }
    | Severity.LOW => { acc with low_count := acc.low_count + 1 }) r

/-- `_calculate_results`: tallies severities (cumulatively!) and computes
`pass_rate = 100.0` for an empty issue list, otherwise
`max(0, (total - critical_high) / total * 100)`. -/
def calculateResults (r : AuditResults) : AuditResults :=
  let total := r.issues.length
  let r2 := tallySeverity r r.issues
  let criticalHigh := r2.critical_count + r2.high_count
  if total = 0 then
    { r2 with pass_rate := 100 }
  else
    { r2 with pass_rate := max 0 (((total : ℚ) - (criticalHigh : ℚ)) / (total : ℚ) * 100) }

/-- Pass rate obtained by scoring a fresh results object holding `l`, exactly
as a `run_audit` call on a freshly reset auditor does. -/
def passRateOf (l : List Issue) : ℚ :=
  (calculateResults { emptyResults with issues := l }).pass_rate

/-! ### Character-level string utilities

File contents are processed as `List Char`, mirroring the Python string
operations used by the checks (substring tests, `strip`, `split('\n')`,
`lower`/`upper`, and the regular-expression searches). -/

/-- Python truthy whitespace set used by `str.strip` and `\s` (ASCII part). -/
def isWS (c : Char) : Bool :=
  c == ' ' || c == '\t' || c == '\n' || c == '\r' || c == '\x0b' || c == '\x0c'

/-- `needle in hay` (Python substring test). -/
def strContainsC (needle : List Char) : List Char → Bool
  | [] => needle.isEmpty
  | c :: rest => needle.isPrefixOf (c :: rest) || strContainsC needle rest

/-- `needle in hay` on `String`s. -/
def strContains (hay needle : String) : Bool :=
  strContainsC needle.toList hay.toList

/-- `s.startswith(pre)`. -/
def startsWithS (s pre : String) : Bool := pre.toList.isPrefixOf s.toList

/-- `s.strip()`. -/
def trimC (cs : List Char) : List Char :=
  ((cs.dropWhile isWS).reverse.dropWhile isWS).reverse

/-- `s.lower()` (ASCII). -/
def lowerC (cs : List Char) : List Char := cs.map Char.toLower

/-- `s.upper()` (ASCII). -/
def upperC (cs : List Char) : List Char := cs.map Char.toUpper

/-- `s.split(sep)` for a single-character separator (Python semantics:
`"".split(c) = [""]`, separators at the ends produce empty pieces). -/
def splitOnChar (sep : Char) : List Char → List (List Char)
  | [] => [[]]
  | c :: rest =>
    if c = sep then [] :: splitOnChar sep rest
    else
      match splitOnChar sep rest with
      | [] => [[c]]
      | p :: ps => (c :: p) :: ps

/-- Inverse of `splitOnChar`: interleave the separator between the pieces. -/
def joinChar (sep : Char) : List (List Char) → List Char
  | [] => []
  | p :: ps =>
    match ps with
    | [] => p
    | _ :: _ => p ++ sep :: joinChar sep ps

/-- `enumerate(content.split('\n'), 1)`: lines paired with 1-based numbers. -/
def enumLinesC (content : List Char) : List (Nat × List Char) :=
  (splitOnChar '\n' content).enum.map (fun p => (p.1 + 1, p.2))

/-! ### Path model

`pathlib` operations used by `_check_file_imports`, over `/`-separated path
strings.  `Path.resolve()` is modelled as textual normalisation of `.` and
`..` segments; making the path absolute and resolving symlinks is abstracted
away because file existence is an oracle (`Snapshot.fsExists`) keyed by the
normalised strings. -/

def splitSlash (cs : List Char) : List (List Char) := splitOnChar '/' cs

def joinSlash (ps : List (List Char)) : List Char := joinChar '/' ps

/-- `Path(p).parent` as a string (the path without its last `/`-segment). -/
def dirNameC (cs : List Char) : List Char := joinSlash (splitSlash cs).dropLast

/-- Stack-based normalisation of `.`/`..`/empty segments performed by
`Path.resolve()`. -/
def normSegsAux : List (List Char) → List (List Char) → List (List Char)
  | acc, [] => acc.reverse
  | acc, seg :: rest =>
    if seg = [] ∨ seg = ['.'] then normSegsAux acc rest
    else if seg = ['.', '.'] then
      match acc with
      | [] => normSegsAux [] rest
      | _ :: t => normSegsAux t rest
    else normSegsAux (seg :: acc) rest

/-- `(Path(dir) / rel).resolve()` as a string. -/
def resolveC (dir rel : List Char) : List Char :=
  joinSlash (normSegsAux [] (splitSlash dir ++ splitSlash rel))

/-- Index of the last `.` in a file name (`name.rfind('.')` when it finds
one): scan left to right remembering the most recent dot position. -/
def lastDotIdxAux (i : Nat) (best : Option Nat) : List Char → Option Nat
  | [] => best
  | c :: rest => lastDotIdxAux (i + 1) (if c = '.' then some i else best) rest

def lastDotIdx (cs : List Char) : Option Nat := lastDotIdxAux 0 none cs

/-- `pathlib`'s `with_suffix` applied to a bare file name: the old suffix is
`name[i:]` for `i = name.rfind('.')` when `0 < i < len(name) - 1`, and is
replaced by `ext`; when there is no such suffix, `ext` is appended.
(`with_suffix` raises on an empty name; that case cannot arise for the
resolved import paths exercised here and is modelled as appending.) -/
def replaceSuffixC (name ext : List Char) : List Char :=
  match lastDotIdx name with
  | some i => if 0 < i ∧ i < name.length - 1 then name.take i ++ ext else name ++ ext
  | none => name ++ ext

/-- `Path(p).with_suffix(ext)`: only the last segment is rewritten. -/
def withSuffixC (cs ext : List Char) : List Char :=
  let segs := splitSlash cs
  joinSlash (segs.dropLast ++ [replaceSuffixC (segs.getLastD []) ext])

/-- The candidate list built by `_check_file_imports`:
`[resolved, resolved.with_suffix('.ts'), resolved.with_suffix('.tsx'),
resolved / 'index.ts', resolved / 'index.tsx']`. -/
def importCandidatesC (resolved : List Char) : List (List Char) :=
  [resolved,
   withSuffixC resolved ".ts".toList,
   withSuffixC resolved ".tsx".toList,
   resolved ++ "/index.ts".toList,
   resolved ++ "/index.tsx".toList]

/-- Modelled from the spec: the candidate list the claim describes, with each
declared extension *appended* to the import path (`p`, `p.ts`, `p.tsx`,
`p/index.ts`, `p/index.tsx`).  Kept separate from `importCandidatesC` (the
source's list) for the refinement comparison of claim C6. -/
def specImportCandidatesC (resolved : List Char) : List (List Char) :=
  [resolved,
   resolved ++ ".ts".toList,
   resolved ++ ".tsx".toList,
   resolved ++ "/index.ts".toList,
   resolved ++ "/index.tsx".toList]

/-! ### Regular-expression scanners

Executable renderings of the `re` patterns in the source.  `findAll` mirrors
`re.findall`: leftmost, non-overlapping matches, resuming after each match
end; on failure at a position the scan advances one character.  The fuel
argument is the content length, which bounds the scan because every match
consumes at least one character. -/

def isQuote (c : Char) : Bool := c == '\'' || c == '"'

def findAllAux {α : Type} (tryAt : List Char → Option (α × List Char)) :
    Nat → List Char → List α
  | 0, _ => []
  | _ + 1, [] => []
  | fuel + 1, c :: rest =>
    match tryAt (c :: rest) with
    | some (a, after) => a :: findAllAux tryAt fuel after
    | none => findAllAux tryAt fuel rest

def findAll {α : Type} (tryAt : List Char → Option (α × List Char))
    (cs : List Char) : List α :=
  findAllAux tryAt cs.length cs

def takeDigits (cs : List Char) : List Char × List Char := cs.span Char.isDigit

def digitsToNat (ds : List Char) : Nat :=
  ds.foldl (fun n c => n * 10 + (c.toNat - '0'.toNat)) 0

/-- Tail of the TypeScript diagnostic pattern
`\((\d+),\d+\): error TS\d+: (.+)` starting right after the file-path
prefix; returns the line number and the message. -/
def matchTail : List Char → Option (Nat × List Char)
  | '(' :: cs1 =>
    let (d1, cs2) := takeDigits cs1
    if d1 = [] then none
    else
      match cs2 with
      | ',' :: cs3 =>
        let (d2, cs4) := takeDigits cs3
        if d2 = [] then none
        else
          match cs4 with
          | ')' :: ':' :: ' ' :: 'e' :: 'r' :: 'r' :: 'o' :: 'r' :: ' ' :: 'T' :: 'S' :: cs5 =>
            let (d3, cs6) := takeDigits cs5
            if d3 = [] then none
            else
              match cs6 with
              | ':' :: ' ' :: msg => if msg = [] then none else some (digitsToNat d1, msg)
              | _ => none
          | _ => none
      | _ => none
  | _ => none

/-- `re.match(r'(.+?)\((\d+),\d+\): error TS\d+: (.+)', line)`: the lazy
`(.+?)` takes the shortest non-empty prefix allowing the rest to match. -/
def tsMatchAux (pre : List Char) : List Char → Option (String × Nat × String)
  | [] => none
  | c :: cs =>
    match matchTail cs with
    | some (n, msg) => some (String.mk (pre ++ [c]), n, String.mk msg)
    | none => tsMatchAux (pre ++ [c]) cs

def tsMatchC (cs : List Char) : Option (String × Nat × String) := tsMatchAux [] cs

def tsMatch (line : String) : Option (String × Nat × String) := tsMatchC line.toList

/-- `re.search(r'from [\'"]([^\'"]+)[\'"]', line)` attempted at one
position. -/
def fromPathAt : List Char → Option (List Char)
  | 'f' :: 'r' :: 'o' :: 'm' :: ' ' :: q :: rest =>
    if isQuote q then
      let (seg, rest2) := rest.span (fun c => !(isQuote c))
      if seg = [] then none
      else
        match rest2 with
        | _ :: _ => some seg
        | [] => none
    else none
  | _ => none

/-- First (leftmost) match of the `from`-path pattern in a line. -/
def findFromPathAux : List Char → Option (List Char)
  | [] => none
  | c :: rest =>
    match fromPathAt (c :: rest) with
    | some seg => some seg
    | none => findFromPathAux rest

/-- HTTP-method alternation `(get|post|put|delete)` followed by `.upper()`. -/
def matchMethod (cs : List Char) : Option (String × List Char) :=
  if "get".toList.isPrefixOf cs then some ("GET", cs.drop 3)
  else if "post".toList.isPrefixOf cs then some ("POST", cs.drop 4)
  else if "put".toList.isPrefixOf cs then some ("PUT", cs.drop 3)
  else if "delete".toList.isPrefixOf cs then some ("DELETE", cs.drop 6)
  else none

/-- One route-definition pattern
`callee\.(get|post|put|delete)\([\'"]([^\'"]+)[\'"]` attempted at one
position. -/
def routeAt (callee : List Char) (cs : List Char) : Option ((String × String) × List Char) :=
  if callee.isPrefixOf cs then
    match cs.drop callee.length with
    | '.' :: cs1 =>
      match matchMethod cs1 with
      | some (m, cs2) =>
        match cs2 with
        | '(' :: q :: cs3 =>
          if isQuote q then
            let (seg, rest2) := cs3.span (fun c => !(isQuote c))
            if seg = [] then none
            else
              match rest2 with
              | _ :: after => some ((m, String.mk seg), after)
              | [] => none
          else none
        | _ => none
      | none => none
    | _ => none
  else none

/-- `queryKey:\s*\[[\'"]([^\'"]+)[\'"]` attempted at one position. -/
def queryKeyAt (cs : List Char) : Option (String × List Char) :=
  if "queryKey:".toList.isPrefixOf cs then
    match (cs.drop 9).dropWhile isWS with
    | '[' :: q :: cs2 =>
      if isQuote q then
        let (seg, rest2) := cs2.span (fun c => !(isQuote c))
        if seg = [] then none
        else
          match rest2 with
          | _ :: after => some (String.mk seg, after)
          | [] => none
      else none
    | _ => none
  else none

def isEnvChar (c : Char) : Bool := ('A' ≤ c && c ≤ 'Z') || c == '_'

/-- `process\.env\.([A-Z_]+)` attempted at one position. -/
def envVarAt (cs : List Char) : Option (String × List Char) :=
  if "process.env.".toList.isPrefixOf cs then
    let (seg, rest) := (cs.drop 12).span isEnvChar
    if seg = [] then none else some (String.mk seg, rest)
  else none

def colorWords : List (List Char) :=
  ["blue", "red", "green", "yellow", "purple", "pink", "indigo", "violet"].map String.toList

/-- Colour alternation `(blue|red|green|yellow|purple|pink|indigo|violet)`
matched at the head of `cs` (tried in the source order). -/
def colorAt (cs : List Char) : Option String :=
  (colorWords.find? (fun w => w.isPrefixOf cs)).map String.mk

/-- `(?:bg-|text-|border-)(colour)` matched at the head of `cs`. -/
def prefixColorAt (cs : List Char) : Option String :=
  if "bg-".toList.isPrefixOf cs then colorAt (cs.drop 3)
  else if "text-".toList.isPrefixOf cs then colorAt (cs.drop 5)
  else if "border-".toList.isPrefixOf cs then colorAt (cs.drop 7)
  else none

/-- Greedy `[^\'"]*` with backtracking: the *last* position of the segment
where the prefixed colour pattern matches. -/
def lastPrefixColor : List Char → Option String
  | [] => none
  | c :: rest =>
    match lastPrefixColor rest with
    | some col => some col
    | none => prefixColorAt (c :: rest)

/-- `className=[\'"][^\'"]*(?:bg-|text-|border-)(colour)[^\'"]*[\'"]`
attempted at one position: the quoted segment runs to the next quote, and the
greedy inner `[^\'"]*` selects the last prefixed colour inside it. -/
def classNameAt (cs : List Char) : Option (String × List Char) :=
  if "className=".toList.isPrefixOf cs then
    match cs.drop 10 with
    | q :: cs1 =>
      if isQuote q then
        let (seg, rest2) := cs1.span (fun c => !(isQuote c))
        match rest2 with
        | _ :: after =>
          match lastPrefixColor seg with
          | some col => some (col, after)
          | none => none
        | [] => none
      else none
    | [] => none
  else none

/-- `re.findall(r'import.*from.*', content)` restricted to one line (matches
never span lines because `.` excludes `\n`, and the trailing greedy `.*`
extends every match to the end of its line, so each line yields at most one
match).  Returns the matched substring: the line from the first `import`
that still has `from` somewhere after it. -/
def matchImportFrom : List Char → Option (List Char)
  | [] => none
  | c :: rest =>
    if "import".toList.isPrefixOf (c :: rest) && strContainsC "from".toList ((c :: rest).drop 6) then
      some (c :: rest)
    else matchImportFrom rest

def importFromLines (content : List Char) : List (List Char) :=
  (splitOnChar '\n' content).filterMap matchImportFrom

def isWordChar (c : Char) : Bool := c.isAlphanum || c == '_'

/-- `any\b` at the head of `cs`. -/
def anyBoundary : List Char → Bool
  | 'a' :: 'n' :: 'y' :: rest =>
    match rest with
    | [] => true
    | d :: _ => !(isWordChar d)
  | _ => false

/-- `\s*any\b` at the head of `cs`. -/
def afterColonAny : List Char → Bool
  | [] => false
  | c :: rest => if isWS c then afterColonAny rest else anyBoundary (c :: rest)

/-- `re.search(r':\s*any\b', line)`. -/
def scanColonAny : List Char → Bool
  | [] => false
  | c :: rest => (c == ':' && afterColonAny rest) || scanColonAny rest

/-- `\s+\w+\([^)]*\)\s*{` at the head of `cs` (the part of the
function-signature pattern after the literal `function`). -/
def afterFunc (cs : List Char) : Bool :=
  let (ws, cs1) := cs.span isWS
  if ws = [] then false
  else
    let (word, cs2) := cs1.span isWordChar
    if word = [] then false
    else
      match cs2 with
      | '(' :: cs3 =>
        match (cs3.span (fun c => c != ')')).2 with
        | ')' :: cs5 =>
          match cs5.dropWhile isWS with
          | '{' :: _ => true
          | _ => false
        | _ => false
      | _ => false

/-- `re.search(r'function\s+\w+\([^)]*\)\s*{', line)`. -/
def scanFuncBrace : List Char → Bool
  | [] => false
  | c :: rest =>
    (c == 'f' && "unction".toList.isPrefixOf rest && afterFunc (rest.drop 7)) ||
      scanFuncBrace rest

/-- `use[A-Z]` found anywhere in `cs`. -/
def hasUseCap : List Char → Bool
  | [] => false
  | c :: rest =>
    (c == 'u' &&
      (match rest with
       | 's' :: 'e' :: d :: _ => d.isUpper
       | _ => false)) || hasUseCap rest

/-- `re.search(r'if.*use[A-Z]', line)`. -/
def scanIfUse : List Char → Bool
  | [] => false
  | c :: rest =>
    (c == 'i' &&
      (match rest with
       | 'f' :: rest2 => hasUseCap rest2
       | _ => false)) || scanIfUse rest

/-- `re.search(r'use[A-Z].*\?\s*', line)`. -/
def scanUseQ : List Char → Bool
  | [] => false
  | c :: rest =>
    (c == 'u' &&
      (match rest with
       | 's' :: 'e' :: d :: rest2 => d.isUpper && rest2.contains '?'
       | _ => false)) || scanUseQ rest

/-! ### Project snapshot

The read-only view of the project consumed by one `run_audit` call.  Globbing
is abstracted (the spec places traversal mechanics out of scope): each glob
family is a list of files in traversal order.  Fallible reads/parses are
`Except`/`Option` values: `none` means the file does not exist, and
`Except.error e` means the corresponding `open`/`json.load`/`subprocess`
raised with message `e` (caught by the check's `except` block).  The JSON
artifacts (`package.json`, `tsconfig.json`) are abstracted to exactly the
fields the source reads. -/

/-- A file yielded by a glob: `content = none` models a read that raises. -/
structure FileEntry where
  path : String
  content : Option String
deriving DecidableEq, Repr

/-- The parts of a parsed `package.json` the source reads: the key sets of
`dependencies`, `devDependencies` and `scripts`. -/
structure Package where
  dependencyKeys : List String
  devDependencyKeys : List String
  scriptKeys : List String
deriving DecidableEq, Repr

/-- The parts of a parsed `tsconfig.json` the source reads:
`strictTrue` is `compilerOptions.get('strict') == True` and `hasPaths` is
`'paths' in compilerOptions`. -/
structure TsConfig where
  strictTrue : Bool
  hasPaths : Bool
deriving DecidableEq, Repr

structure Snapshot where
  /-- The `npx tsc --noEmit --skipLibCheck` invocation: `error e` when
  `subprocess.run` raises, otherwise the return code and stderr text. -/
  tscRun : Except String (Int × String)
  /-- `package.json`: absent, unparsable, or parsed. -/
  packageJson : Option (Except String Package)
  /-- `shared/schema.ts`: absent, unreadable, or its text. -/
  schemaFile : Option (Except String String)
  /-- `server/routes.ts`: absent, unreadable, or its text. -/
  routesFile : Option (Except String String)
  /-- `(root / 'client' / 'src').exists()`. -/
  clientSrcExists : Bool
  /-- `client/src` `rglob('*.tsx')` in traversal order. -/
  clientTsxFiles : List FileEntry
  /-- Files yielded by the `typescript_patterns` globs in traversal order. -/
  tsFiles : List FileEntry
  /-- Files yielded by the `style_patterns` globs in traversal order. -/
  styleFiles : List FileEntry
  /-- `tsconfig.json`: absent, unparsable, or parsed. -/
  tsconfig : Option (Except String TsConfig)
  /-- Whether `glob('README*')` yields at least one file. -/
  readmeExists : Bool
  /-- Existence oracle for the resolved relative-import candidate paths. -/
  fsExists : String → Bool

/-! ### The thirteen rule checks of `run_audit` -/

/-- `_parse_typescript_error`. -/
def parseTypescriptError (line : List Char) (r : AuditResults) : AuditResults :=
  match tsMatchC line with
  | some (fp, n, msg) =>
    addIssue r fp n Severity.CRITICAL "TypeScript" ("Compilation error: " ++ msg)
      "Fix TypeScript syntax and type errors"
  | none => r

/-- `_check_typescript_compilation`. -/
def checkTypescriptCompilation (s : Snapshot) (r : AuditResults) : AuditResults :=
  match s.tscRun with
  | Except.error e =>
    addIssue r "tsconfig.json" 0 Severity.CRITICAL "TypeScript"
      ("Failed to run TypeScript compiler: " ++ e)
      "Ensure TypeScript is properly installed and configured"
  | Except.ok (rc, stderr) =>
    if rc ≠ 0 then
      (splitOnChar '\n' stderr.toList).foldl (fun acc line =>
        if !(trimC line).isEmpty && !("Found".toList.isPrefixOf line) then
          parseTypescriptError line acc
        else acc) r
    else r

def requiredDeps : List String :=
  ["@types/react", "@types/react-dom", "typescript",
   "drizzle-orm", "@tanstack/react-query", "wouter"]

/-- `_check_missing_dependencies`. -/
def checkMissingDependencies (s : Snapshot) (r : AuditResults) : AuditResults :=
  match s.packageJson with
  | none =>
    addIssue r "package.json" 0 Severity.CRITICAL "Dependencies"
      "package.json not found" "Create package.json with proper dependencies"
  | some (Except.error e) =>
    addIssue r "package.json" 0 Severity.CRITICAL "Dependencies"
      ("Failed to parse package.json: " ++ e) "Fix package.json syntax"
  | some (Except.ok pkg) =>
    requiredDeps.foldl (fun acc dep =>
      if pkg.dependencyKeys.contains dep || pkg.devDependencyKeys.contains dep then acc
      else
        addIssue acc "package.json" 0 Severity.HIGH "Dependencies"
          ("Missing required dependency: " ++ dep)
          ("Add " ++ dep ++ " to dependencies or devDependencies")) r

/-- `_check_database_schema_consistency`. -/
def checkDatabaseSchemaConsistency (s : Snapshot) (r : AuditResults) : AuditResults :=
  match s.schemaFile with
  | none =>
    addIssue r "shared/schema.ts" 0 Severity.CRITICAL "Database"
      "Database schema file not found"
      "Create shared/schema.ts with Drizzle schema definitions"
  | some (Except.error e) =>
    addIssue r "shared/schema.ts" 0 Severity.HIGH "Database"
      ("Failed to read schema file: " ++ e) "Fix schema file accessibility"
  | some (Except.ok content) =>
    let r1 :=
      if !(strContains content "export const") then
        addIssue r "shared/schema.ts" 0 Severity.HIGH "Database"
          "No table exports found in schema" "Add proper table exports"
      else r
    if !(strContains content "export type") then
      addIssue r1 "shared/schema.ts" 0 Severity.MEDIUM "Database"
        "No type exports found in schema"
        "Add proper type exports for InsertUser, User, etc."
    else r1

/-- `_check_server_routes`. -/
def checkServerRoutes (rf : Except String String) (r : AuditResults) : AuditResults :=
  match rf with
  | Except.error e =>
    addIssue r "server/routes.ts" 0 Severity.HIGH "API Routes"
      ("Failed to parse routes file: " ++ e) "Fix routes file syntax"
  | Except.ok content =>
    let routes :=
      findAll (routeAt "app".toList) content.toList ++
        findAll (routeAt "router".toList) content.toList
    routes.foldl (fun acc mp =>
      if !(startsWithS mp.2 "/api/") then
        addIssue acc "server/routes.ts" 0 Severity.MEDIUM "API Routes"
          ("Route " ++ mp.2 ++ " doesn't follow /api/ convention")
          "Update route to start with /api/"
      else acc) r

/-- `_check_client_api_calls`. -/
def checkClientApiCalls (s : Snapshot) (r : AuditResults) : AuditResults :=
  if !s.clientSrcExists then r
  else
    s.clientTsxFiles.foldl (fun acc f =>
      match f.content with
      | none => acc
      | some content =>
        (findAll queryKeyAt content.toList).foldl (fun a q =>
          if !(startsWithS q "/api/") then
            addIssue a f.path 0 Severity.MEDIUM "API Calls"
              ("Query key " ++ q ++ " doesn't follow /api/ convention")
              "Update query key to start with /api/"
          else a) acc) r

/-- `_check_api_route_consistency`. -/
def checkApiRouteConsistency (s : Snapshot) (r : AuditResults) : AuditResults :=
  let r1 :=
    match s.routesFile with
    | none => r
    | some rf => checkServerRoutes rf r
  checkClientApiCalls s r1

/-- The body of `_check_file_imports` for one extracted import path: emit a
HIGH issue when the path is relative and none of the resolved candidates
exist. -/
def handleImport (fs : String → Bool) (filePath : String) (lineno : Nat)
    (p : String) (r : AuditResults) : AuditResults :=
  if startsWithS p "./" || startsWithS p "../" then
    let resolved := resolveC (dirNameC filePath.toList) p.toList
    if ((importCandidatesC resolved).map String.mk).any fs then r
    else
      addIssue r filePath lineno Severity.HIGH "Imports"
        ("Import path not found: " ++ p) "Fix import path or create missing file"
  else r

/-- One line of `_check_file_imports`. -/
def checkImportLine (fs : String → Bool) (filePath : String)
    (il : Nat × List Char) (r : AuditResults) : AuditResults :=
  let line := trimC il.2
  if "import".toList.isPrefixOf line && strContainsC "from".toList line then
    match findFromPathAux line with
    | some seg => handleImport fs filePath il.1 (String.mk seg) r
    | none => r
  else r

/-- `_check_file_imports`. -/
def checkFileImports (fs : String → Bool) (f : FileEntry) (r : AuditResults) :
    AuditResults :=
  match f.content with
  | none => r
  | some content =>
    (enumLinesC content.toList).foldl (fun acc il => checkImportLine fs f.path il acc) r

/-- `_check_import_export_issues`. -/
def checkImportExportIssues (s : Snapshot) (r : AuditResults) : AuditResults :=
  s.tsFiles.foldl (fun acc f =>
    if strContains f.path "node_modules" then acc
    else checkFileImports s.fsExists f acc) r

/-- `_check_react_component`. -/
def checkReactComponent (f : FileEntry) (r : AuditResults) : AuditResults :=
  match f.content with
  | none => r
  | some content =>
    let cs := content.toList
    let r1 :=
      if !(strContainsC "export default".toList cs) then
        addIssue r f.path 0 Severity.MEDIUM "React"
          "Component missing default export" "Add default export for React component"
      else r
    (importFromLines cs).foldl (fun acc il =>
      if strContainsC "React".toList il && strContainsC "import React".toList il then
        if !(strContainsC "React.".toList cs) && !(strContainsC "createElement".toList cs) then
          addIssue acc f.path 0 Severity.LOW "React"
            "Unnecessary React import (using JSX transform)" "Remove explicit React import"
        else acc
      else acc) r1

/-- `_check_component_structure`. -/
def checkComponentStructure (s : Snapshot) (r : AuditResults) : AuditResults :=
  if !s.clientSrcExists then r
  else s.clientTsxFiles.foldl (fun acc f => checkReactComponent f acc) r

/-- `_check_hooks_in_file` (the trailing `useEffect` dependency loop of the
source has an empty body and emits nothing). -/
def checkHooksInFile (f : FileEntry) (r : AuditResults) : AuditResults :=
  match f.content with
  | none => r
  | some content =>
    (enumLinesC content.toList).foldl (fun acc il =>
      if scanIfUse il.2 || scanUseQ il.2 then
        addIssue acc f.path il.1 Severity.HIGH "React Hooks"
          "Hook called conditionally" "Move hook call outside conditional logic"
      else acc) r

/-- `_check_react_hooks_usage`. -/
def checkReactHooksUsage (s : Snapshot) (r : AuditResults) : AuditResults :=
  if !s.clientSrcExists then r
  else s.clientTsxFiles.foldl (fun acc f => checkHooksInFile f acc) r

/-- `_check_types_in_file`. -/
def checkTypesInFile (f : FileEntry) (r : AuditResults) : AuditResults :=
  match f.content with
  | none => r
  | some content =>
    (enumLinesC content.toList).foldl (fun acc il =>
      let line := trimC il.2
      let r1 :=
        if scanColonAny line && !(strContainsC "// @ts-ignore".toList line) then
          addIssue acc f.path il.1 Severity.MEDIUM "Type Safety"
            "Using 'any' type" "Replace 'any' with specific type"
        else acc
      if scanFuncBrace line && !(strContainsC "):".toList line) then
        addIssue r1 f.path il.1 Severity.LOW "Type Safety"
          "Function missing return type" "Add explicit return type to function"
      else r1) r

/-- `_check_type_safety`. -/
def checkTypeSafety (s : Snapshot) (r : AuditResults) : AuditResults :=
  s.tsFiles.foldl (fun acc f =>
    if strContains f.path "node_modules" then acc
    else checkTypesInFile f acc) r

def forbiddenColors : List String :=
  ["#ff", "#00", "#blue", "#red", "#green", "#yellow", "#purple", "#pink",
   "blue-", "red-", "green-", "yellow-", "purple-", "pink-", "indigo-", "violet-"]

/-- The Python `repr` of `list(self.brand_colors.values())` interpolated into
the fix suggestion. -/
def brandColorsStr : String :=
  "['#F2F3F1', '#8EA58C', '#738A6E', '#344C3D', '#88A5BC']"

/-- `_check_colors_in_css`. -/
def checkColorsInCss (f : FileEntry) (r : AuditResults) : AuditResults :=
  match f.content with
  | none => r
  | some content =>
    (enumLinesC content.toList).foldl (fun acc il =>
      forbiddenColors.foldl (fun a forb =>
        if strContainsC forb.toList (lowerC il.2) then
          addIssue a f.path il.1 Severity.MEDIUM "Brand Colors"
            ("Non-brand color found: " ++ forb)
            ("Replace with brand colors: " ++ brandColorsStr)
        else a) acc) r

/-- `_check_colors_in_tsx`. -/
def checkColorsInTsx (f : FileEntry) (r : AuditResults) : AuditResults :=
  match f.content with
  | none => r
  | some content =>
    (findAll classNameAt content.toList).foldl (fun acc col =>
      addIssue acc f.path 0 Severity.MEDIUM "Brand Colors"
        ("Non-brand Tailwind color: " ++ col)
        "Replace with brand color classes or custom styles") r

/-- `_check_brand_color_compliance`. -/
def checkBrandColorCompliance (s : Snapshot) (r : AuditResults) : AuditResults :=
  let r1 := s.styleFiles.foldl (fun acc f => checkColorsInCss f acc) r
  s.tsFiles.foldl (fun acc f =>
    if strContains f.path "node_modules" then acc
    else checkColorsInTsx f acc) r1

/-- `_check_tsconfig`. -/
def checkTsconfig (cfg : Except String TsConfig) (r : AuditResults) : AuditResults :=
  match cfg with
  | Except.error e =>
    addIssue r "tsconfig.json" 0 Severity.HIGH "Configuration"
      ("Failed to parse tsconfig.json: " ++ e) "Fix JSON syntax in tsconfig.json"
  | Except.ok c =>
    let r1 :=
      if !c.strictTrue then
        addIssue r "tsconfig.json" 0 Severity.MEDIUM "Configuration"
          "TypeScript strict mode not enabled" "Enable strict mode in compilerOptions"
      else r
    if !c.hasPaths then
      addIssue r1 "tsconfig.json" 0 Severity.LOW "Configuration"
        "No path mappings configured" "Add path mappings for cleaner imports"
    else r1

/-- `_check_package_scripts` (its `except` branch is a silent `pass`). -/
def checkPackageScripts (pj : Except String Package) (r : AuditResults) : AuditResults :=
  match pj with
  | Except.error _ => r
  | Except.ok pkg =>
    ["dev", "build", "start"].foldl (fun acc scr =>
      if pkg.scriptKeys.contains scr then acc
      else
        addIssue acc "package.json" 0 Severity.LOW "Configuration"
          ("Missing " ++ scr ++ " script") ("Add " ++ scr ++ " script to package.json")) r

/-- `_check_configuration_files`. -/
def checkConfigurationFiles (s : Snapshot) (r : AuditResults) : AuditResults :=
  let r1 :=
    match s.tsconfig with
    | none =>
      addIssue r "tsconfig.json" 0 Severity.HIGH "Configuration"
        "tsconfig.json not found" "Create tsconfig.json with proper TypeScript configuration"
    | some cfg => checkTsconfig cfg r
  match s.packageJson with
  | none => r1
  | some pj => checkPackageScripts pj r1

/-- `_check_env_vars_in_file`. -/
def checkEnvVarsInFile (f : FileEntry) (r : AuditResults) : AuditResults :=
  match f.content with
  | none => r
  | some content =>
    let envVars := findAll envVarAt content.toList
    if strContains f.path "client/src" then
      envVars.foldl (fun acc v =>
        if !(startsWithS v "VITE_") then
          addIssue acc f.path 0 Severity.HIGH "Environment"
            ("Frontend env var " ++ v ++ " missing VITE_ prefix")
            ("Rename to VITE_" ++ v ++ " or use import.meta.env")
        else acc) r
    else r

/-- `_check_environment_variables`. -/
def checkEnvironmentVariables (s : Snapshot) (r : AuditResults) : AuditResults :=
  s.tsFiles.foldl (fun acc f =>
    if strContains f.path "node_modules" then acc
    else checkEnvVarsInFile f acc) r

/-- `_check_quality_in_file`. -/
def checkQualityInFile (f : FileEntry) (r : AuditResults) : AuditResults :=
  match f.content with
  | none => r
  | some content =>
    (enumLinesC content.toList).foldl (fun acc il =>
      let r1 :=
        if strContainsC "console.log".toList il.2 && !(strContainsC "// @keep".toList il.2) then
          addIssue acc f.path il.1 Severity.LOW "Code Quality"
            "console.log found" "Remove console.log or replace with proper logging"
        else acc
      if strContainsC "TODO".toList (upperC il.2) || strContainsC "FIXME".toList (upperC il.2) then
        addIssue r1 f.path il.1 Severity.LOW "Code Quality"
          "TODO/FIXME comment found" "Complete or remove TODO/FIXME comment"
      else r1) r

/-- `_check_code_quality`. -/
def checkCodeQuality (s : Snapshot) (r : AuditResults) : AuditResults :=
  s.tsFiles.foldl (fun acc f =>
    if strContains f.path "node_modules" then acc
    else checkQualityInFile f acc) r

/-- `_check_documentation`. -/
def checkDocumentation (s : Snapshot) (r : AuditResults) : AuditResults :=
  if s.readmeExists then r
  else
    addIssue r "README.md" 0 Severity.LOW "Documentation"
      "README file not found" "Create README.md with project documentation"

/-- The thirteen check calls of `run_audit`, in source order. -/
def runChecks (s : Snapshot) (r : AuditResults) : AuditResults :=
  checkDocumentation s
    (checkCodeQuality s
      (checkEnvironmentVariables s
        (checkConfigurationFiles s
          (checkBrandColorCompliance s
            (checkTypeSafety s
              (checkReactHooksUsage s
                (checkComponentStructure s
                  (checkImportExportIssues s
                    (checkApiRouteConsistency s
                      (checkDatabaseSchemaConsistency s
                        (checkMissingDependencies s
                          (checkTypescriptCompilation s r))))))))))))

/-- `run_audit` on a freshly constructed auditor (the state at the start of
every iteration of `main`): run all checks, then `_calculate_results`. -/
def runAudit (s : Snapshot) : AuditResults :=
  calculateResults (runChecks s emptyResults)

/-! ### Fix generation -/

/-- `['CRITICAL', 'HIGH', 'MEDIUM', 'LOW'].index(x.severity.value)`. -/
def severityRank (s : Severity) : Nat :=
  match s with
  | Severity.CRITICAL => 0
  | Severity.HIGH => 1
  | Severity.MEDIUM => 2
  | Severity.LOW => 3

/-- Stable insertion (new element goes after every element of rank ≤ its
own), the building block for Python's stable `sorted`. -/
def insertByRank (x : Issue) : List Issue → List Issue
  | [] => [x]
  | y :: ys =>
    if severityRank y.severity ≤ severityRank x.severity then y :: insertByRank x ys
    else x :: y :: ys

/-- `sorted(issues, key=lambda x: [...].index(x.severity.value))` — a stable
sort by severity rank, processing the list in emission order. -/
def sortIssues (l : List Issue) : List Issue :=
  l.foldl (fun acc x => insertByRank x acc) []

/-- `_generate_fix_command`. -/
def generateFixCommand (issue : Issue) : Option String :=
  if issue.category == "TypeScript" && strContains issue.description "Missing" then
    some ("# Fix missing dependency: " ++ issue.description)
  else if issue.category == "Imports" && strContains issue.description "not found" then
    some ("# Fix import path in " ++ issue.file_path ++ ":" ++ toString issue.line_number)
  else if issue.category == "Brand Colors" then
    some ("# Update colors in " ++ issue.file_path ++ " to use brand palette")
  else none

/-- `generate_fixes`, parameterised by the fix-command function (the source
appends when the command is truthy; every template is a non-empty string, so
this is the `some`/`none` distinction). -/
def generateFixesWith (cmd : Issue → Option String) (issues : List Issue) : List String :=
  (sortIssues issues).foldl (fun fixes issue =>
    if issue.severity == Severity.CRITICAL || issue.severity == Severity.HIGH then
      match cmd issue with
      | some c => fixes ++ [c]
      | none => fixes
    else fixes) []

/-- `generate_fixes`. -/
def generateFixes (issues : List Issue) : List String :=
  generateFixesWith generateFixCommand issues

/-- `_generate_fix_command` with the Brand Colors branch removed — the
comparison point for claim C10 (no fix string ever originates from that
branch). -/
def generateFixCommandNoBrand (issue : Issue) : Option String :=
  if issue.category == "TypeScript" && strContains issue.description "Missing" then
    some ("# Fix missing dependency: " ++ issue.description)
  else if issue.category == "Imports" && strContains issue.description "not found" then
    some ("# Fix import path in " ++ issue.file_path ++ ":" ++ toString issue.line_number)
  else none

/-! ### Iteration controller (`main`) -/

/-- The two terminal outcomes of the iteration loop of `main`: the spec's
`CONVERGED` is the `pass_rate >= 100.0` break (exit code 0), `EXHAUSTED` is
leaving the `while` loop with a sub-100 pass rate (exit code 1). -/
inductive LoopState
  | CONVERGED
  | EXHAUSTED
deriving DecidableEq, Repr

/-- The `while iteration <= max_iterations` loop of `main`, abstracting each
`run_audit` call to the pass rate it returns (`runner i` for iteration `i`).
Returns the terminal state and the number of runner executions.  The fuel is
the remaining iteration budget; starting from iteration 1 with fuel
`maxIter`, the fuel reaches 0 exactly when `iteration = maxIter + 1`, i.e.
when the loop guard fails. -/
def loopFrom (runner : Nat → ℚ) (maxIter : Nat) : Nat → Nat → Nat → LoopState × Nat
  | _, executed, 0 => (LoopState.EXHAUSTED, executed)
  | i, executed, fuel + 1 =>
    if i ≤ maxIter then
      if 100 ≤ runner i then (LoopState.CONVERGED, executed + 1)
      else loopFrom runner maxIter (i + 1) (executed + 1) fuel
    else (LoopState.EXHAUSTED, executed)

/-- The whole loop of `main`: iteration counter starts at 1. -/
def mainLoop (runner : Nat → ℚ) (maxIter : Nat) : LoopState × Nat :=
  loopFrom runner maxIter 1 0 maxIter

/-! ### Spec-side comparison definitions -/

/-- Modelled from the spec: the number of distinct files visited by any
check's traversal of the snapshot (a file visited by multiple checks counts
once).  The source never computes this quantity — `total_files_scanned` is
initialised to 0 and never assigned — so this definition follows the spec's
words for the refinement comparison of claim C5. -/
def distinctVisitedCount (s : Snapshot) : Nat :=
  (((s.tsFiles.filter (fun f => !(strContains f.path "node_modules"))).map FileEntry.path) ++
      s.styleFiles.map FileEntry.path ++
      (if s.clientSrcExists then s.clientTsxFiles.map FileEntry.path else [])).dedup.length

/-! ### Structural predicates on checks -/

/-- A state transformer only appends issues: it leaves every other field of
the results object unchanged, and what it appends does not depend on the
state it is given. -/
def OnlyAppends (f : AuditResults → AuditResults) : Prop :=
  ∀ r, f r = { r with issues := r.issues ++ (f emptyResults).issues }

/-- The invariant behind claim C10: an issue in the `Brand Colors` category
always carries `MEDIUM` severity. -/
def brandP (i : Issue) : Prop :=
  i.category = "Brand Colors" → i.severity = Severity.MEDIUM

/-- A check transformer that only appends issues, all of them satisfying the
brand-colour severity invariant. -/
def GoodCheck (f : AuditResults → AuditResults) : Prop :=
  OnlyAppends f ∧ ∀ i ∈ (f emptyResults).issues, brandP i

/-- The registered checks of `run_audit` as a list (registry view for the
determinism claim). -/
def checkList : List (Snapshot → AuditResults → AuditResults) :=
  [checkTypescriptCompilation, checkMissingDependencies,
   checkDatabaseSchemaConsistency, checkApiRouteConsistency,
   checkImportExportIssues, checkComponentStructure, checkReactHooksUsage,
   checkTypeSafety, checkBrandColorCompliance, checkConfigurationFiles,
   checkEnvironmentVariables, checkCodeQuality, checkDocumentation]

/-! ### Named issues appearing in theorem statements -/

/-- The single CRITICAL issue emitted when the type-checker process cannot
run. -/
def tscFailIssue (e : String) : Issue :=
  { file_path := "tsconfig.json", line_number := 0, severity := Severity.CRITICAL,
    category := "TypeScript", description := "Failed to run TypeScript compiler: " ++ e,
    fix_suggestion := "Ensure TypeScript is properly installed and configured" }

/-- The CRITICAL issue produced for one matched diagnostic line. -/
def tsDiagIssue (fp : String) (n : Nat) (msg : String) : Issue :=
  { file_path := fp, line_number := n, severity := Severity.CRITICAL,
    category := "TypeScript", description := "Compilation error: " ++ msg,
    fix_suggestion := "Fix TypeScript syntax and type errors" }

/-- Per-line emission of the compilation check when the tool exits non-zero:
an issue exactly for a non-blank line that does not start with `Found` and
matches the diagnostic pattern. -/
def tsLineEmit (line : List Char) : Option Issue :=
  if !(trimC line).isEmpty && !("Found".toList.isPrefixOf line) then
    (tsMatchC line).map (fun t => tsDiagIssue t.1 t.2.1 t.2.2)
  else none

/-- The HIGH issue emitted by `_check_tsconfig` when `json.load` raises. -/
def tsconfigParseIssue (e : String) : Issue :=
  { file_path := "tsconfig.json", line_number := 0, severity := Severity.HIGH,
    category := "Configuration", description := "Failed to parse tsconfig.json: " ++ e,
    fix_suggestion := "Fix JSON syntax in tsconfig.json" }

/-- The HIGH issue emitted by `_check_file_imports` for an unresolvable
relative import. -/
def importNotFoundIssue (fp : String) (ln : Nat) (p : String) : Issue :=
  { file_path := fp, line_number := ln, severity := Severity.HIGH,
    category := "Imports", description := "Import path not found: " ++ p,
    fix_suggestion := "Fix import path or create missing file" }

/-- Last `/`-segment of a path string. -/
def lastSegC (cs : List Char) : List Char := (splitSlash cs).getLastD []

/-! ### Concrete inputs for counterexamples and witnesses -/

/-- A minimal issue of a given severity. -/
def sampleIssue (sev : Severity) : Issue :=
  { file_path := "f.ts", line_number := 1, severity := sev, category := "Cat",
    description := "d", fix_suggestion := "s" }

/-- Five issues: one CRITICAL and four LOW (the spec's 80% worked example). -/
def exList80 : List Issue :=
  [sampleIssue Severity.CRITICAL, sampleIssue Severity.LOW, sampleIssue Severity.LOW,
   sampleIssue Severity.LOW, sampleIssue Severity.LOW]

/-- Three all-CRITICAL issues (the spec's 0% worked example). -/
def exList0 : List Issue :=
  [sampleIssue Severity.CRITICAL, sampleIssue Severity.CRITICAL, sampleIssue Severity.CRITICAL]

/-- A runner whose pass rate is 50.0 on every iteration. -/
def runner50 : Nat → ℚ := fun _ => 50

/-- A runner that reaches a 100.0 pass rate on iteration 2. -/
def runnerConv2 : Nat → ℚ := fun i => if i = 2 then 100 else 50

/-- A snapshot on which every check succeeds and finds nothing. -/
def cleanSnapshot : Snapshot :=
  { tscRun := Except.ok (0, ""),
    packageJson := some (Except.ok
      { dependencyKeys :=
          ["@types/react", "@types/react-dom", "typescript",
           "drizzle-orm", "@tanstack/react-query", "wouter"],
        devDependencyKeys := [],
        scriptKeys := ["dev", "build", "start"] }),
    schemaFile := some (Except.ok "export const users = table\nexport type User = number"),
    routesFile := none,
    clientSrcExists := false,
    clientTsxFiles := [],
    tsFiles := [],
    styleFiles := [],
    tsconfig := some (Except.ok { strictTrue := true, hasPaths := true }),
    readmeExists := true,
    fsExists := fun _ => false }

/-- `cleanSnapshot` with `wouter` removed from `package.json` — the input
whose audit produces exactly one Dependencies/Missing HIGH issue (claim C4). -/
def snapshotNoWouter : Snapshot :=
  { cleanSnapshot with
    packageJson := some (Except.ok
      { dependencyKeys :=
          ["@types/react", "@types/react-dom", "typescript",
           "drizzle-orm", "@tanstack/react-query"],
        devDependencyKeys := [],
        scriptKeys := ["dev", "build", "start"] }) }

/-- The issue `_check_missing_dependencies` emits when `wouter` is absent. -/
def depMissingIssue : Issue :=
  { file_path := "package.json", line_number := 0, severity := Severity.HIGH,
    category := "Dependencies", description := "Missing required dependency: wouter",
    fix_suggestion := "Add wouter to dependencies or devDependencies" }

/-- `cleanSnapshot` extended with one clean TypeScript file — one file is
visited, yet `total_files_scanned` stays 0 (claim C5). -/
def snapshotOneFile : Snapshot :=
  { cleanSnapshot with tsFiles := [{ path := "src/a.ts", content := some "" }] }

/-- Existence oracle for the C6 counterexample: only `src/foo.helpers.ts`
exists. -/
def fsC6 : String → Bool := fun q => q == "src/foo.helpers.ts"

/-- The importing file of the C6 counterexample. -/
def fileC6 : FileEntry :=
  { path := "src/a.ts", content := some "import helpers from './foo.helpers'" }

/-- `cleanSnapshot` with an unparsable `tsconfig.json` (claim C7 witness). -/
def snapshotBadTsconfig : Snapshot :=
  { cleanSnapshot with tsconfig := some (Except.error "bad json") }

/-- A diagnostic line that matches the error pattern but begins with
`Found`, so the compilation check silently drops it (claim C8). -/
def foundLine : String := "FoundPage.tsx(3,5): error TS2304: Cannot find name"

/-- Snapshot whose type-checker exits 2 emitting only `foundLine`. -/
def snapshotFoundLine : Snapshot :=
  { cleanSnapshot with tscRun := Except.ok (2, foundLine) }

/-- Snapshot whose type-checker invocation raises. -/
def snapshotTscError : Snapshot :=
  { cleanSnapshot with tscRun := Except.error "boom" }

/-- `cleanSnapshot` with one CSS file containing a forbidden colour (claim
C10 witness). -/
def snapshotBrand : Snapshot :=
  { cleanSnapshot with styleFiles := [{ path := "app.css", content := some "color: blue-500" }] }

/-- The MEDIUM Brand Colors issue `_check_colors_in_css` emits for
`snapshotBrand`. -/
def brandIssue0 : Issue :=
  { file_path := "app.css", line_number := 1, severity := Severity.MEDIUM,
    category := "Brand Colors", description := "Non-brand color found: blue-",
    fix_suggestion := "Replace with brand colors: " ++ brandColorsStr }

end Audit
namespace Audit

theorem countSeverity_nil (sev : Severity) : countSeverity sev [] = 0 := rfl

theorem countSeverity_cons (sev : Severity) (x : Issue) (l : List Issue) :
    countSeverity sev (x :: l) =
      (if x.severity = sev then 1 else 0) + countSeverity sev l := by
  by_cases h : x.severity = sev <;>
    simp [countSeverity, List.filter_cons, h, Nat.add_comm]

theorem tallySeverity_eq (l : List Issue) (r : AuditResults) :
    tallySeverity r l =
      { r with critical_count := r.critical_count + countSeverity Severity.CRITICAL l,
               high_count := r.high_count + countSeverity Severity.HIGH l,
               medium_count := r.medium_count + countSeverity Severity.MEDIUM l,
               low_count := r.low_count + countSeverity Severity.LOW l } := by
  induction l generalizing r with
  | nil => simp [tallySeverity, countSeverity]
  | cons x l ih =>
    cases hx : x.severity <;>
      simp [tallySeverity, List.foldl_cons, hx, countSeverity_cons,
        ih, Nat.add_assoc, Nat.add_comm 1] <;>
      simp [tallySeverity] at ih <;>
      rw [ih] <;> simp [hx, Nat.add_assoc, Nat.add_comm 1]

theorem countSeverity_le_length (sev : Severity) (l : List Issue) :
    countSeverity sev l ≤ l.length :=
  List.length_filter_le _ l

theorem countCH_le_length (l : List Issue) :
    countSeverity Severity.CRITICAL l + countSeverity Severity.HIGH l ≤ l.length := by
  induction l with
  | nil => simp [countSeverity]
  | cons x l ih =>
    cases hx : x.severity <;>
      simp [countSeverity_cons, hx] <;> omega

end Audit
namespace Audit

theorem passRateOf_eq (l : List Issue) :
    passRateOf l =
      if l.length = 0 then (100 : ℚ)
      else max 0 (((l.length : ℚ) -
          ((countSeverity Severity.CRITICAL l + countSeverity Severity.HIGH l : Nat) : ℚ)) /
        (l.length : ℚ) * 100) := by
  unfold passRateOf calculateResults
  rw [tallySeverity_eq]
  simp only [emptyResults]
  by_cases h : l = [] <;> simp [h]

end Audit
namespace Audit

theorem passRateOf_nonneg (l : List Issue) : 0 ≤ passRateOf l := by
  rw [passRateOf_eq]
  split
  · norm_num
  · exact le_max_left 0 _

theorem passRateOf_le_100 (l : List Issue) : passRateOf l ≤ 100 := by
  rw [passRateOf_eq]
  split
  · norm_num
  · rename_i h
    have hn : (0 : ℚ) < (l.length : ℚ) := by
      exact_mod_cast Nat.pos_of_ne_zero h
    refine max_le (by norm_num) ?_
    have hle : ((l.length : ℚ) -
        ((countSeverity Severity.CRITICAL l + countSeverity Severity.HIGH l : Nat) : ℚ)) /
        (l.length : ℚ) ≤ 1 := by
      rw [div_le_one hn]
      have : (0 : ℚ) ≤ ((countSeverity Severity.CRITICAL l + countSeverity Severity.HIGH l : Nat) : ℚ) := by positivity
      linarith
    calc ((l.length : ℚ) - _) / (l.length : ℚ) * 100 ≤ 1 * 100 := by
          exact mul_le_mul_of_nonneg_right hle (by norm_num)
      _ = 100 := by norm_num

theorem passRateOf_eq_100_iff (l : List Issue) :
    passRateOf l = 100 ↔
      countSeverity Severity.CRITICAL l = 0 ∧ countSeverity Severity.HIGH l = 0 := by
  rw [passRateOf_eq]
  by_cases h : l.length = 0
  · have hl : l = [] := List.length_eq_zero.mp h
    subst hl
    simp [countSeverity]
  · simp only [h, if_false]
    have hn : (0 : ℚ) < (l.length : ℚ) := by
      exact_mod_cast Nat.pos_of_ne_zero h
    have hchle := countCH_le_length l
    set c := countSeverity Severity.CRITICAL l with hc
    set hh := countSeverity Severity.HIGH l with hhh
    have hch : ((c + hh : Nat) : ℚ) ≤ (l.length : ℚ) := by exact_mod_cast hchle
    constructor
    · intro hmax
      have hx : ((l.length : ℚ) - ((c + hh : Nat) : ℚ)) / (l.length : ℚ) * 100 = 100 := by
        rcases max_choice (0 : ℚ) (((l.length : ℚ) - ((c + hh : Nat) : ℚ)) / (l.length : ℚ) * 100) with h0 | h1
        · rw [h0] at hmax; norm_num at hmax
        · rw [h1] at hmax; exact hmax
      rw [div_mul_eq_mul_div, div_eq_iff (ne_of_gt hn)] at hx
      push_cast at hx
      have hcnn : (0 : ℚ) ≤ (c : ℚ) := Nat.cast_nonneg c
      have hhnn : (0 : ℚ) ≤ (hh : ℚ) := Nat.cast_nonneg hh
      have hceq : (c : ℚ) = 0 := by linarith
      have hheq : (hh : ℚ) = 0 := by linarith
      exact ⟨by exact_mod_cast hceq, by exact_mod_cast hheq⟩
    · rintro ⟨hc0, hh0⟩
      have hzero : ((c + hh : Nat) : ℚ) = 0 := by
        rw [hc0, hh0]; norm_num
      rw [hzero, sub_zero, div_self (ne_of_gt hn)]
      simp

end Audit
namespace Audit

/-- C1: the scorer computes `passRate` exactly as specified: 100.0 on an
empty issue list, otherwise `max(0, (total - critical - high)/total * 100)`;
the result always lies in `[0, 100]`, matches the worked examples (5 issues
with 1 critical and 4 low give 80.0, 3 all-critical issues give 0.0), and
equals 100 exactly when there are no CRITICAL and no HIGH issues. -/
theorem scorer_pass_rate_c1 (l : List Issue) :
    (passRateOf l =
        if l.length = 0 then (100 : ℚ)
        else max 0 (((l.length : ℚ) -
            ((countSeverity Severity.CRITICAL l + countSeverity Severity.HIGH l : Nat) : ℚ)) /
          (l.length : ℚ) * 100)) ∧
      0 ≤ passRateOf l ∧ passRateOf l ≤ 100 ∧
      (passRateOf l = 100 ↔
        countSeverity Severity.CRITICAL l = 0 ∧ countSeverity Severity.HIGH l = 0) ∧
      (l.length = 5 → countSeverity Severity.CRITICAL l = 1 →
        countSeverity Severity.HIGH l = 0 → passRateOf l = 80) ∧
      (l.length = 3 → countSeverity Severity.CRITICAL l = 3 → passRateOf l = 0) := by
  refine ⟨passRateOf_eq l, passRateOf_nonneg l, passRateOf_le_100 l,
    passRateOf_eq_100_iff l, ?_, ?_⟩
  · intro hlen hc hhh
    rw [passRateOf_eq, hlen, hc, hhh]
    norm_num
  · intro hlen hc
    have hhh : countSeverity Severity.HIGH l = 0 := by
      have := countCH_le_length l
      omega
    rw [passRateOf_eq, hlen, hc, hhh]
    norm_num

/-- Witness for C1 at the two worked examples. -/
theorem scorer_pass_rate_c1_witness :
    passRateOf exList80 = 80 ∧ passRateOf exList0 = 0 :=
  ⟨(scorer_pass_rate_c1 exList80).2.2.2.2.1 (by decide) (by decide) (by decide),
   (scorer_pass_rate_c1 exList0).2.2.2.2.2 (by decide) (by decide)⟩

end Audit
namespace Audit

theorem goodCheck_id : GoodCheck (fun r => r) := by
  constructor
  · intro r; simp [emptyResults]
  · intro i hi; simp [emptyResults] at hi

theorem goodCheck_addIssue (fp : String) (ln : Nat) (sev : Severity)
    (cat desc fix : String)
    (hP : brandP ⟨fp, ln, sev, cat, desc, fix, ""⟩) :
    GoodCheck (fun r => addIssue r fp ln sev cat desc fix) := by
  constructor
  · intro r; simp [addIssue, emptyResults]
  · intro i hi
    simp [addIssue, emptyResults] at hi
    rw [hi]
    exact hP

theorem GoodCheck.comp (f g : AuditResults → AuditResults)
    (hf : GoodCheck f) (hg : GoodCheck g) : GoodCheck (fun r => g (f r)) := by
  have key : ∀ r, g (f r) = { r with issues := r.issues ++ (g (f emptyResults)).issues } := by
    intro r
    rw [hg.1 (f r), hf.1 r, hg.1 (f emptyResults), hf.1 emptyResults]
    simp [emptyResults, List.append_assoc]
  constructor
  · intro r; exact key r
  · intro i hi
    have hmem : i ∈ (g (f emptyResults)).issues := hi
    rw [hg.1 (f emptyResults), hf.1 emptyResults] at hmem
    simp [emptyResults] at hmem
    rcases hmem with hmem | hmem
    · exact hf.2 i hmem
    · exact hg.2 i hmem

theorem GoodCheck.ite (c : Prop) [Decidable c] (f g : AuditResults → AuditResults)
    (hf : GoodCheck f) (hg : GoodCheck g) :
    GoodCheck (fun r => if c then f r else g r) := by
  by_cases h : c
  · constructor
    · intro r; simp only [h, if_true]; exact hf.1 r
    · intro i hi; simp only [h, if_true] at hi; exact hf.2 i hi
  · constructor
    · intro r; simp only [h, if_false]; exact hg.1 r
    · intro i hi; simp only [h, if_false] at hi; exact hg.2 i hi

theorem GoodCheck.foldl {α : Type} (l : List α) (step : α → AuditResults → AuditResults)
    (h : ∀ x, GoodCheck (step x)) :
    GoodCheck (fun r => l.foldl (fun acc x => step x acc) r) := by
  induction l with
  | nil => simpa using goodCheck_id
  | cons x l ih =>
    simpa [List.foldl_cons] using GoodCheck.comp _ _ (h x) ih

end Audit
namespace Audit

theorem brandP_other (fp : String) (ln : Nat) (sev : Severity) (cat desc fix : String)
    (h : cat ≠ "Brand Colors") :
    brandP ⟨fp, ln, sev, cat, desc, fix, ""⟩ := fun hc => absurd hc h

theorem brandP_medium (fp : String) (ln : Nat) (cat desc fix : String) :
    brandP ⟨fp, ln, Severity.MEDIUM, cat, desc, fix, ""⟩ := fun _ => rfl

theorem goodCheck_checkDocumentation (s : Snapshot) :
    GoodCheck (fun r => checkDocumentation s r) := by
  unfold checkDocumentation
  exact GoodCheck.ite _ (fun r => r) _ goodCheck_id
    (goodCheck_addIssue _ _ _ _ _ _ (brandP_other _ _ _ _ _ _ (by decide)))

theorem goodCheck_checkMissingDependencies (s : Snapshot) :
    GoodCheck (fun r => checkMissingDependencies s r) := by
  unfold checkMissingDependencies
  rcases s.packageJson with _ | pkg
  · exact goodCheck_addIssue _ _ _ _ _ _ (brandP_other _ _ _ _ _ _ (by decide))
  · rcases pkg with e | pkg
    · exact goodCheck_addIssue _ _ _ _ _ _ (brandP_other _ _ _ _ _ _ (by decide))
    · exact GoodCheck.foldl _ _ (fun dep =>
        GoodCheck.ite _ (fun r => r) _ goodCheck_id
          (goodCheck_addIssue _ _ _ _ _ _ (brandP_other _ _ _ _ _ _ (by decide))))

end Audit
namespace Audit

theorem GoodCheck.foldlMem {α : Type} (l : List α) (step : α → AuditResults → AuditResults)
    (h : ∀ x ∈ l, GoodCheck (step x)) :
    GoodCheck (fun r => l.foldl (fun acc x => step x acc) r) := by
  induction l with
  | nil => simpa using goodCheck_id
  | cons x l ih =>
    simpa [List.foldl_cons] using
      GoodCheck.comp _ _ (h x (List.mem_cons_self x l))
        (ih (fun y hy => h y (List.mem_cons_of_mem x hy)))

theorem GoodCheck.seqIte (c1 c2 : Prop) [Decidable c1] [Decidable c2]
    (f1 f2 : AuditResults → AuditResults) (h1 : GoodCheck f1) (h2 : GoodCheck f2) :
    GoodCheck (fun r =>
      if c2 then f2 (if c1 then f1 r else r) else (if c1 then f1 r else r)) :=
  GoodCheck.comp (fun r => if c1 then f1 r else r) (fun x => if c2 then f2 x else x)
    (GoodCheck.ite c1 f1 (fun r => r) h1 goodCheck_id)
    (GoodCheck.ite c2 f2 (fun r => r) h2 goodCheck_id)

theorem goodCheck_parseTypescriptError (line : List Char) :
    GoodCheck (fun r => parseTypescriptError line r) := by
  unfold parseTypescriptError
  rcases tsMatchC line with _ | ⟨fp, n, msg⟩
  · exact goodCheck_id
  · exact goodCheck_addIssue _ _ _ _ _ _ (brandP_other _ _ _ _ _ _ (by decide))

theorem goodCheck_checkTypescriptCompilation (s : Snapshot) :
    GoodCheck (fun r => checkTypescriptCompilation s r) := by
  unfold checkTypescriptCompilation
  rcases s.tscRun with e | ⟨rc, stderr⟩
  · exact goodCheck_addIssue _ _ _ _ _ _ (brandP_other _ _ _ _ _ _ (by decide))
  · exact GoodCheck.ite _ _ (fun r => r)
      (GoodCheck.foldl _ _ (fun line =>
        GoodCheck.ite _ _ (fun r => r) (goodCheck_parseTypescriptError line) goodCheck_id))
      goodCheck_id

theorem goodCheck_checkDatabaseSchemaConsistency (s : Snapshot) :
    GoodCheck (fun r => checkDatabaseSchemaConsistency s r) := by
  unfold checkDatabaseSchemaConsistency
  rcases s.schemaFile with _ | e | content
  · exact goodCheck_addIssue _ _ _ _ _ _ (brandP_other _ _ _ _ _ _ (by decide))
  · exact goodCheck_addIssue _ _ _ _ _ _ (brandP_other _ _ _ _ _ _ (by decide))
  · exact GoodCheck.seqIte _ _ _ _
      (goodCheck_addIssue _ _ _ _ _ _ (brandP_other _ _ _ _ _ _ (by decide)))
      (goodCheck_addIssue _ _ _ _ _ _ (brandP_other _ _ _ _ _ _ (by decide)))

theorem goodCheck_checkServerRoutes (rf : Except String String) :
    GoodCheck (fun r => checkServerRoutes rf r) := by
  unfold checkServerRoutes
  rcases rf with e | content
  · exact goodCheck_addIssue _ _ _ _ _ _ (brandP_other _ _ _ _ _ _ (by decide))
  · exact GoodCheck.foldl _ _ (fun mp =>
      GoodCheck.ite _ _ (fun r => r)
        (goodCheck_addIssue _ _ _ _ _ _ (brandP_other _ _ _ _ _ _ (by decide)))
        goodCheck_id)

theorem goodCheck_checkClientApiCalls (s : Snapshot) :
    GoodCheck (fun r => checkClientApiCalls s r) := by
  unfold checkClientApiCalls
  exact GoodCheck.ite _ (fun r => r) _ goodCheck_id
    (GoodCheck.foldl _ _ (fun f => by
      rcases f with ⟨fp, _ | content⟩
      · exact goodCheck_id
      · exact GoodCheck.foldl _ _ (fun q =>
          GoodCheck.ite _ _ (fun r => r)
            (goodCheck_addIssue _ _ _ _ _ _ (brandP_other _ _ _ _ _ _ (by decide)))
            goodCheck_id)))

theorem goodCheck_checkApiRouteConsistency (s : Snapshot) :
    GoodCheck (fun r => checkApiRouteConsistency s r) := by
  unfold checkApiRouteConsistency
  refine GoodCheck.comp
    (fun r => match s.routesFile with | none => r | some rf => checkServerRoutes rf r)
    (fun x => checkClientApiCalls s x) ?_ (goodCheck_checkClientApiCalls s)
  rcases s.routesFile with _ | rf
  · exact goodCheck_id
  · exact goodCheck_checkServerRoutes rf

end Audit
namespace Audit

theorem goodCheck_handleImport (fs : String → Bool) (fp : String) (ln : Nat) (p : String) :
    GoodCheck (fun r => handleImport fs fp ln p r) := by
  unfold handleImport
  exact GoodCheck.ite _ _ (fun r => r)
    (GoodCheck.ite _ (fun r => r) _ goodCheck_id
      (goodCheck_addIssue _ _ _ _ _ _ (brandP_other _ _ _ _ _ _ (by decide))))
    goodCheck_id

theorem goodCheck_checkImportLine (fs : String → Bool) (fp : String) (il : Nat × List Char) :
    GoodCheck (fun r => checkImportLine fs fp il r) := by
  unfold checkImportLine
  refine GoodCheck.ite _ _ (fun r => r) ?_ goodCheck_id
  rcases findFromPathAux (trimC il.2) with _ | seg
  · exact goodCheck_id
  · exact goodCheck_handleImport fs fp il.1 (String.mk seg)

theorem goodCheck_checkFileImports (fs : String → Bool) (f : FileEntry) :
    GoodCheck (fun r => checkFileImports fs f r) := by
  unfold checkFileImports
  rcases f with ⟨fp, _ | content⟩
  · exact goodCheck_id
  · exact GoodCheck.foldl _ _ (fun il => goodCheck_checkImportLine fs fp il)

theorem goodCheck_checkImportExportIssues (s : Snapshot) :
    GoodCheck (fun r => checkImportExportIssues s r) := by
  unfold checkImportExportIssues
  exact GoodCheck.foldl _ _ (fun f =>
    GoodCheck.ite _ (fun r => r) _ goodCheck_id (goodCheck_checkFileImports s.fsExists f))

theorem goodCheck_checkReactComponent (f : FileEntry) :
    GoodCheck (fun r => checkReactComponent f r) := by
  unfold checkReactComponent
  rcases f with ⟨fp, _ | content⟩
  · exact goodCheck_id
  · refine GoodCheck.comp _ _
      (GoodCheck.ite _ _ (fun r => r)
        (goodCheck_addIssue _ _ _ _ _ _ (brandP_other _ _ _ _ _ _ (by decide)))
        goodCheck_id)
      (GoodCheck.foldl _ _ (fun il =>
        GoodCheck.ite _ _ (fun r => r)
          (GoodCheck.ite _ _ (fun r => r)
            (goodCheck_addIssue _ _ _ _ _ _ (brandP_other _ _ _ _ _ _ (by decide)))
            goodCheck_id)
          goodCheck_id))

theorem goodCheck_checkComponentStructure (s : Snapshot) :
    GoodCheck (fun r => checkComponentStructure s r) := by
  unfold checkComponentStructure
  exact GoodCheck.ite _ (fun r => r) _ goodCheck_id
    (GoodCheck.foldl _ _ (fun f => goodCheck_checkReactComponent f))

theorem goodCheck_checkHooksInFile (f : FileEntry) :
    GoodCheck (fun r => checkHooksInFile f r) := by
  unfold checkHooksInFile
  rcases f with ⟨fp, _ | content⟩
  · exact goodCheck_id
  · exact GoodCheck.foldl _ _ (fun il =>
      GoodCheck.ite _ _ (fun r => r)
        (goodCheck_addIssue _ _ _ _ _ _ (brandP_other _ _ _ _ _ _ (by decide)))
        goodCheck_id)

theorem goodCheck_checkReactHooksUsage (s : Snapshot) :
    GoodCheck (fun r => checkReactHooksUsage s r) := by
  unfold checkReactHooksUsage
  exact GoodCheck.ite _ (fun r => r) _ goodCheck_id
    (GoodCheck.foldl _ _ (fun f => goodCheck_checkHooksInFile f))

theorem goodCheck_checkTypesInFile (f : FileEntry) :
    GoodCheck (fun r => checkTypesInFile f r) := by
  unfold checkTypesInFile
  rcases f with ⟨fp, _ | content⟩
  · exact goodCheck_id
  · exact GoodCheck.foldl _ _ (fun il =>
      GoodCheck.seqIte _ _ _ _
        (goodCheck_addIssue _ _ _ _ _ _ (brandP_other _ _ _ _ _ _ (by decide)))
        (goodCheck_addIssue _ _ _ _ _ _ (brandP_other _ _ _ _ _ _ (by decide))))

theorem goodCheck_checkTypeSafety (s : Snapshot) :
    GoodCheck (fun r => checkTypeSafety s r) := by
  unfold checkTypeSafety
  exact GoodCheck.foldl _ _ (fun f =>
    GoodCheck.ite _ (fun r => r) _ goodCheck_id (goodCheck_checkTypesInFile f))

theorem goodCheck_checkColorsInCss (f : FileEntry) :
    GoodCheck (fun r => checkColorsInCss f r) := by
  unfold checkColorsInCss
  rcases f with ⟨fp, _ | content⟩
  · exact goodCheck_id
  · exact GoodCheck.foldl _ _ (fun il =>
      GoodCheck.foldl _ _ (fun forb =>
        GoodCheck.ite _ _ (fun r => r)
          (goodCheck_addIssue _ _ _ _ _ _ (brandP_medium _ _ _ _ _))
          goodCheck_id))

theorem goodCheck_checkColorsInTsx (f : FileEntry) :
    GoodCheck (fun r => checkColorsInTsx f r) := by
  unfold checkColorsInTsx
  rcases f with ⟨fp, _ | content⟩
  · exact goodCheck_id
  · exact GoodCheck.foldl _ _ (fun col =>
      goodCheck_addIssue _ _ _ _ _ _ (brandP_medium _ _ _ _ _))

theorem goodCheck_checkBrandColorCompliance (s : Snapshot) :
    GoodCheck (fun r => checkBrandColorCompliance s r) := by
  unfold checkBrandColorCompliance
  exact GoodCheck.comp
    (fun r => s.styleFiles.foldl (fun acc f => checkColorsInCss f acc) r)
    (fun x => s.tsFiles.foldl (fun acc f =>
      if strContains f.path "node_modules" then acc else checkColorsInTsx f acc) x)
    (GoodCheck.foldl _ _ (fun f => goodCheck_checkColorsInCss f))
    (GoodCheck.foldl _ _ (fun f =>
      GoodCheck.ite _ (fun r => r) _ goodCheck_id (goodCheck_checkColorsInTsx f)))

theorem goodCheck_checkTsconfig (cfg : Except String TsConfig) :
    GoodCheck (fun r => checkTsconfig cfg r) := by
  unfold checkTsconfig
  rcases cfg with e | c
  · exact goodCheck_addIssue _ _ _ _ _ _ (brandP_other _ _ _ _ _ _ (by decide))
  · exact GoodCheck.seqIte _ _ _ _
      (goodCheck_addIssue _ _ _ _ _ _ (brandP_other _ _ _ _ _ _ (by decide)))
      (goodCheck_addIssue _ _ _ _ _ _ (brandP_other _ _ _ _ _ _ (by decide)))

theorem goodCheck_checkPackageScripts (pj : Except String Package) :
    GoodCheck (fun r => checkPackageScripts pj r) := by
  unfold checkPackageScripts
  rcases pj with e | pkg
  · exact goodCheck_id
  · exact GoodCheck.foldl _ _ (fun scr =>
      GoodCheck.ite _ (fun r => r) _ goodCheck_id
        (goodCheck_addIssue _ _ _ _ _ _ (brandP_other _ _ _ _ _ _ (by decide))))

theorem goodCheck_checkConfigurationFiles (s : Snapshot) :
    GoodCheck (fun r => checkConfigurationFiles s r) := by
  unfold checkConfigurationFiles
  refine GoodCheck.comp
    (fun r => match s.tsconfig with
      | none => addIssue r "tsconfig.json" 0 Severity.HIGH "Configuration"
          "tsconfig.json not found" "Create tsconfig.json with proper TypeScript configuration"
      | some cfg => checkTsconfig cfg r)
    (fun x => match s.packageJson with | none => x | some pj => checkPackageScripts pj x)
    ?_ ?_
  · rcases s.tsconfig with _ | cfg
    · exact goodCheck_addIssue _ _ _ _ _ _ (brandP_other _ _ _ _ _ _ (by decide))
    · exact goodCheck_checkTsconfig cfg
  · rcases s.packageJson with _ | pj
    · exact goodCheck_id
    · exact goodCheck_checkPackageScripts pj

theorem goodCheck_checkEnvVarsInFile (f : FileEntry) :
    GoodCheck (fun r => checkEnvVarsInFile f r) := by
  unfold checkEnvVarsInFile
  rcases f with ⟨fp, _ | content⟩
  · exact goodCheck_id
  · exact GoodCheck.ite _ _ (fun r => r)
      (GoodCheck.foldl _ _ (fun v =>
        GoodCheck.ite _ _ (fun r => r)
          (goodCheck_addIssue _ _ _ _ _ _ (brandP_other _ _ _ _ _ _ (by decide)))
          goodCheck_id))
      goodCheck_id

theorem goodCheck_checkEnvironmentVariables (s : Snapshot) :
    GoodCheck (fun r => checkEnvironmentVariables s r) := by
  unfold checkEnvironmentVariables
  exact GoodCheck.foldl _ _ (fun f =>
    GoodCheck.ite _ (fun r => r) _ goodCheck_id (goodCheck_checkEnvVarsInFile f))

theorem goodCheck_checkQualityInFile (f : FileEntry) :
    GoodCheck (fun r => checkQualityInFile f r) := by
  unfold checkQualityInFile
  rcases f with ⟨fp, _ | content⟩
  · exact goodCheck_id
  · exact GoodCheck.foldl _ _ (fun il =>
      GoodCheck.seqIte _ _ _ _
        (goodCheck_addIssue _ _ _ _ _ _ (brandP_other _ _ _ _ _ _ (by decide)))
        (goodCheck_addIssue _ _ _ _ _ _ (brandP_other _ _ _ _ _ _ (by decide))))

theorem goodCheck_checkCodeQuality (s : Snapshot) :
    GoodCheck (fun r => checkCodeQuality s r) := by
  unfold checkCodeQuality
  exact GoodCheck.foldl _ _ (fun f =>
    GoodCheck.ite _ (fun r => r) _ goodCheck_id (goodCheck_checkQualityInFile f))

theorem goodCheck_mem_checkList (s : Snapshot) :
    ∀ c ∈ checkList, GoodCheck (fun r => c s r) := by
  intro c hc
  simp only [checkList, List.mem_cons, List.not_mem_nil, or_false] at hc
  rcases hc with rfl | rfl | rfl | rfl | rfl | rfl | rfl | rfl | rfl | rfl | rfl | rfl | rfl
  · exact goodCheck_checkTypescriptCompilation s
  · exact goodCheck_checkMissingDependencies s
  · exact goodCheck_checkDatabaseSchemaConsistency s
  · exact goodCheck_checkApiRouteConsistency s
  · exact goodCheck_checkImportExportIssues s
  · exact goodCheck_checkComponentStructure s
  · exact goodCheck_checkReactHooksUsage s
  · exact goodCheck_checkTypeSafety s
  · exact goodCheck_checkBrandColorCompliance s
  · exact goodCheck_checkConfigurationFiles s
  · exact goodCheck_checkEnvironmentVariables s
  · exact goodCheck_checkCodeQuality s
  · exact goodCheck_checkDocumentation s

theorem runChecks_eq_foldl (s : Snapshot) (r : AuditResults) :
    runChecks s r = checkList.foldl (fun acc c => c s acc) r := rfl

theorem goodCheck_runChecks (s : Snapshot) :
    GoodCheck (fun r => runChecks s r) := by
  have h := GoodCheck.foldlMem checkList (fun c acc => c s acc) (goodCheck_mem_checkList s)
  exact h

end Audit
namespace Audit

theorem foldlChain_issues (s : Snapshot) :
    ∀ (cs : List (Snapshot → AuditResults → AuditResults)),
      (∀ c ∈ cs, GoodCheck (fun r => c s r)) →
      ∀ (r : AuditResults),
        (cs.foldl (fun acc c => c s acc) r).issues =
          r.issues ++ (cs.map (fun c => (c s emptyResults).issues)).flatten := by
  intro cs
  induction cs with
  | nil => intro _ r; simp
  | cons c cs ih =>
    intro h r
    simp only [List.foldl_cons, List.map_cons, List.flatten_cons]
    rw [ih (fun d hd => h d (List.mem_cons_of_mem c hd)) (c s r)]
    have hc := (h c (List.mem_cons_self c cs)).1 r
    simp only at hc
    rw [hc]
    simp [List.append_assoc]

theorem calculateResults_issues (r : AuditResults) :
    (calculateResults r).issues = r.issues := by
  by_cases h : r.issues.length = 0 <;>
    simp [calculateResults, tallySeverity_eq, h]

theorem calculateResults_tfs (r : AuditResults) :
    (calculateResults r).total_files_scanned = r.total_files_scanned := by
  by_cases h : r.issues.length = 0 <;>
    simp [calculateResults, tallySeverity_eq, h]

theorem countSeverity_sum (l : List Issue) :
    countSeverity Severity.CRITICAL l + countSeverity Severity.HIGH l +
      countSeverity Severity.MEDIUM l + countSeverity Severity.LOW l = l.length := by
  induction l with
  | nil => simp [countSeverity]
  | cons x l ih =>
    cases hx : x.severity <;> simp [countSeverity_cons, hx] <;> omega

theorem calculateResults_fresh_counts (l : List Issue) :
    (calculateResults { emptyResults with issues := l }).critical_count =
        countSeverity Severity.CRITICAL l ∧
      (calculateResults { emptyResults with issues := l }).high_count =
        countSeverity Severity.HIGH l ∧
      (calculateResults { emptyResults with issues := l }).medium_count =
        countSeverity Severity.MEDIUM l ∧
      (calculateResults { emptyResults with issues := l }).low_count =
        countSeverity Severity.LOW l ∧
      (calculateResults { emptyResults with issues := l }).issues = l := by
  by_cases h : l.length = 0 <;>
    simp [calculateResults, tallySeverity_eq, h, emptyResults]

theorem runChecks_fresh (s : Snapshot) :
    runChecks s emptyResults =
      { emptyResults with issues := (runChecks s emptyResults).issues } := by
  have h := (goodCheck_runChecks s).1 emptyResults
  simp only at h
  rw [h]

end Audit
namespace Audit

/-- C2 counterexample: running `_calculate_results` twice on the same results
object doubles the per-severity counts, so they no longer match the partition
of the issue list (the source increments counts without resetting them). -/
theorem scorer_counts_c2_counterexample :
    let r2 := calculateResults (calculateResults
      { emptyResults with issues := [sampleIssue Severity.CRITICAL] })
    r2.critical_count = 2 ∧
      countSeverity Severity.CRITICAL r2.issues = 1 ∧
      r2.critical_count + r2.high_count + r2.medium_count + r2.low_count = 2 ∧
      r2.issues.length = 1 := by
  decide

/-- C2 amended: after a single execution of the scoring step on a freshly
constructed results object — which is what every `run_audit` call in `main`
performs — the per-severity counts equal the partition counts and sum to the
length of the issue list; in particular this holds for every `runAudit`
result. -/
theorem scorer_counts_c2_amended (l : List Issue) (s : Snapshot) :
    ((calculateResults { emptyResults with issues := l }).critical_count =
        countSeverity Severity.CRITICAL l ∧
      (calculateResults { emptyResults with issues := l }).high_count =
        countSeverity Severity.HIGH l ∧
      (calculateResults { emptyResults with issues := l }).medium_count =
        countSeverity Severity.MEDIUM l ∧
      (calculateResults { emptyResults with issues := l }).low_count =
        countSeverity Severity.LOW l ∧
      (calculateResults { emptyResults with issues := l }).critical_count +
        (calculateResults { emptyResults with issues := l }).high_count +
        (calculateResults { emptyResults with issues := l }).medium_count +
        (calculateResults { emptyResults with issues := l }).low_count = l.length) ∧
    ((runAudit s).critical_count = countSeverity Severity.CRITICAL (runAudit s).issues ∧
      (runAudit s).high_count = countSeverity Severity.HIGH (runAudit s).issues ∧
      (runAudit s).medium_count = countSeverity Severity.MEDIUM (runAudit s).issues ∧
      (runAudit s).low_count = countSeverity Severity.LOW (runAudit s).issues ∧
      (runAudit s).critical_count + (runAudit s).high_count +
        (runAudit s).medium_count + (runAudit s).low_count = (runAudit s).issues.length) := by
  have base := calculateResults_fresh_counts l
  obtain ⟨hc, hh, hm, hlo, _⟩ := base
  refine ⟨⟨hc, hh, hm, hlo, ?_⟩, ?_⟩
  · rw [hc, hh, hm, hlo, countSeverity_sum]
  · have hra : runAudit s =
        calculateResults { emptyResults with issues := (runChecks s emptyResults).issues } := by
      unfold runAudit
      conv_lhs => rw [runChecks_fresh s]
    obtain ⟨hc2, hh2, hm2, hlo2, hiss2⟩ :=
      calculateResults_fresh_counts (runChecks s emptyResults).issues
    rw [hra, hiss2, hc2, hh2, hm2, hlo2]
    exact ⟨rfl, rfl, rfl, rfl, countSeverity_sum _⟩

/-- C5 amended: `filesScanned` (`total_files_scanned`) is 0 on every run —
the field is initialised to 0 and no check or scoring step ever updates it. -/
theorem files_scanned_c5_amended (s : Snapshot) :
    (runAudit s).total_files_scanned = 0 := by
  unfold runAudit
  rw [calculateResults_tfs]
  have h := (goodCheck_runChecks s).1 emptyResults
  simp only at h
  rw [h]
  rfl

/-- C5 counterexample: a run over a snapshot whose traversal visits one
distinct file still reports `filesScanned = 0`, refuting the claim that the
field equals the number of distinct files visited. -/
theorem files_scanned_c5_counterexample :
    (runAudit snapshotOneFile).total_files_scanned = 0 ∧
      distinctVisitedCount snapshotOneFile = 1 := by
  decide

/-- C9: every registered rule check is deterministic and append-only — the
issue sequence appended by a second execution against the same snapshot
equals the sequence appended by the first, whatever results state each
starts from. -/
theorem check_determinism_c9 :
    ∀ c ∈ checkList, ∀ (s : Snapshot) (r : AuditResults),
      ((c s (c s r)).issues).drop ((c s r).issues).length =
        ((c s r).issues).drop r.issues.length := by
  intro c hc s r
  have h := (goodCheck_mem_checkList s c hc).1
  have h1 := h r
  have h2 := h (c s r)
  simp only at h1 h2
  rw [h2, h1]
  simp [List.drop_left]

/-- C9 witness at the documentation check on a concrete snapshot. -/
theorem check_determinism_c9_witness :
    ((checkDocumentation cleanSnapshot (checkDocumentation cleanSnapshot emptyResults)).issues).drop
        ((checkDocumentation cleanSnapshot emptyResults).issues).length =
      ((checkDocumentation cleanSnapshot emptyResults).issues).drop emptyResults.issues.length :=
  check_determinism_c9 checkDocumentation (by simp [checkList]) cleanSnapshot emptyResults

end Audit
namespace Audit

/-- C7: the runner's issue list is always the concatenation of the thirteen
checks' own emissions — every check contributes regardless of what any other
check encountered (all recoverable failures are absorbed inside each check's
boundary), and a run always produces an `AuditResults`.  In particular a
malformed `tsconfig.json` surfaces as that check's parse issue inside the
same run's results rather than terminating it. -/
theorem check_isolation_c7 (s : Snapshot) (r : AuditResults) :
    ((runChecks s r).issues =
      r.issues ++ (checkTypescriptCompilation s emptyResults).issues ++
        (checkMissingDependencies s emptyResults).issues ++
        (checkDatabaseSchemaConsistency s emptyResults).issues ++
        (checkApiRouteConsistency s emptyResults).issues ++
        (checkImportExportIssues s emptyResults).issues ++
        (checkComponentStructure s emptyResults).issues ++
        (checkReactHooksUsage s emptyResults).issues ++
        (checkTypeSafety s emptyResults).issues ++
        (checkBrandColorCompliance s emptyResults).issues ++
        (checkConfigurationFiles s emptyResults).issues ++
        (checkEnvironmentVariables s emptyResults).issues ++
        (checkCodeQuality s emptyResults).issues ++
        (checkDocumentation s emptyResults).issues) ∧
    (∀ e, s.tsconfig = some (Except.error e) →
      tsconfigParseIssue e ∈ (runAudit s).issues) := by
  constructor
  · rw [runChecks_eq_foldl, foldlChain_issues s checkList (goodCheck_mem_checkList s) r]
    simp [checkList, List.append_assoc]
  · intro e he
    have hmem : tsconfigParseIssue e ∈ (checkConfigurationFiles s emptyResults).issues := by
      unfold checkConfigurationFiles
      rw [he]
      dsimp only
      rcases s.packageJson with _ | pj
      · simp [checkTsconfig, addIssue, emptyResults, tsconfigParseIssue]
      · dsimp only
        have hps := (goodCheck_checkPackageScripts pj).1 (checkTsconfig (Except.error e) emptyResults)
        simp only at hps
        rw [hps]
        simp [checkTsconfig, addIssue, emptyResults, tsconfigParseIssue]
    unfold runAudit
    rw [calculateResults_issues, runChecks_eq_foldl,
      foldlChain_issues s checkList (goodCheck_mem_checkList s) emptyResults]
    simp only [checkList, List.map_cons, List.map_nil, List.flatten_cons, List.flatten_nil,
      List.append_nil, List.mem_append]
    tauto

/-- Witness for C7 at a snapshot with an unparsable `tsconfig.json`. -/
theorem check_isolation_c7_witness :
    tsconfigParseIssue "bad json" ∈ (runAudit snapshotBadTsconfig).issues :=
  (check_isolation_c7 snapshotBadTsconfig emptyResults).2 "bad json" rfl

end Audit
namespace Audit

theorem mem_insertByRank (x y : Issue) (l : List Issue) :
    y ∈ insertByRank x l ↔ y = x ∨ y ∈ l := by
  induction l with
  | nil => simp [insertByRank]
  | cons z l ih =>
    unfold insertByRank
    split
    · simp [ih]
      tauto
    · simp
      try tauto

theorem mem_sortIssues_aux (y : Issue) :
    ∀ (l : List Issue) (acc : List Issue),
      y ∈ l.foldl (fun a x => insertByRank x a) acc → y ∈ acc ∨ y ∈ l := by
  intro l
  induction l with
  | nil => intro acc h; simpa using h
  | cons x l ih =>
    intro acc h
    simp only [List.foldl_cons] at h
    rcases ih (insertByRank x acc) h with h2 | h2
    · rcases (mem_insertByRank x y acc).mp h2 with h3 | h3
      · right; simp [h3]
      · left; exact h3
    · right; simp [h2]

theorem mem_sortIssues (l : List Issue) (y : Issue) (h : y ∈ sortIssues l) : y ∈ l := by
  rcases mem_sortIssues_aux y l [] h with h2 | h2
  · simp at h2
  · exact h2

theorem generateFixCommand_eq_noBrand (x : Issue) (hbrand : brandP x)
    (hsev : (x.severity == Severity.CRITICAL || x.severity == Severity.HIGH) = true) :
    generateFixCommand x = generateFixCommandNoBrand x := by
  unfold generateFixCommand generateFixCommandNoBrand
  by_cases h1 : (x.category == "TypeScript" && strContains x.description "Missing") = true
  · simp [h1]
  · by_cases h2 : (x.category == "Imports" && strContains x.description "not found") = true
    · simp [h1, h2]
    · simp only [h1, h2, if_false]
      by_cases h3 : (x.category == "Brand Colors") = true
      · exfalso
        have hcat : x.category = "Brand Colors" := by simpa using h3
        have hmed := hbrand hcat
        rw [hmed] at hsev
        exact absurd hsev (by decide)
      · simp [h3]

theorem fixesFold_congr :
    ∀ (L : List Issue) (acc : List String), (∀ i ∈ L, brandP i) →
      (L.foldl (fun fixes issue =>
        if issue.severity == Severity.CRITICAL || issue.severity == Severity.HIGH then
          match generateFixCommand issue with
          | some c => fixes ++ [c]
          | none => fixes
        else fixes) acc) =
      (L.foldl (fun fixes issue =>
        if issue.severity == Severity.CRITICAL || issue.severity == Severity.HIGH then
          match generateFixCommandNoBrand issue with
          | some c => fixes ++ [c]
          | none => fixes
        else fixes) acc) := by
  intro L
  induction L with
  | nil => intro acc _; simp
  | cons x L ih =>
    intro acc h
    simp only [List.foldl_cons]
    have hx := h x (List.mem_cons_self x L)
    have hrest : ∀ i ∈ L, brandP i := fun i hi => h i (List.mem_cons_of_mem x hi)
    by_cases hs : (x.severity == Severity.CRITICAL || x.severity == Severity.HIGH) = true
    · rw [show (if x.severity == Severity.CRITICAL || x.severity == Severity.HIGH then
          (match generateFixCommand x with
            | some c => acc ++ [c]
            | none => acc)
          else acc) =
          (if x.severity == Severity.CRITICAL || x.severity == Severity.HIGH then
          (match generateFixCommandNoBrand x with
            | some c => acc ++ [c]
            | none => acc)
          else acc) from by rw [generateFixCommand_eq_noBrand x hx hs]]
      exact ih _ hrest
    · simp only [hs, if_false]
      exact ih _ hrest

theorem generateFixesWith_congr (issues : List Issue)
    (h : ∀ i ∈ issues, brandP i) :
    generateFixesWith generateFixCommand issues =
      generateFixesWith generateFixCommandNoBrand issues := by
  unfold generateFixesWith
  exact fixesFold_congr (sortIssues issues) []
    (fun i hi => h i (mem_sortIssues issues i hi))

/-- C10: the Brand Colors branch of `_generate_fix_command` is unreachable
through `generate_fixes` on any audit output: every issue the checks emit in
the `Brand Colors` category carries MEDIUM severity, while `generate_fixes`
invokes the command generator only on CRITICAL and HIGH issues, so the fix
list is identical to the one computed with the Brand Colors branch deleted. -/
theorem brand_branch_unreachable_c10 (s : Snapshot) :
    generateFixes (runAudit s).issues =
      generateFixesWith generateFixCommandNoBrand (runAudit s).issues ∧
    ∀ i ∈ (runAudit s).issues, i.category = "Brand Colors" →
      i.severity = Severity.MEDIUM := by
  have hmem : ∀ i ∈ (runAudit s).issues, brandP i := by
    intro i hi
    have hi2 : i ∈ (runChecks s emptyResults).issues := by
      rw [runAudit, calculateResults_issues] at hi
      exact hi
    exact (goodCheck_runChecks s).2 i hi2
  exact ⟨generateFixesWith_congr _ hmem, hmem⟩

/-- Witness for C10 at a snapshot that actually produces a Brand Colors
issue. -/
theorem brand_branch_unreachable_c10_witness :
    generateFixes (runAudit snapshotBrand).issues =
      generateFixesWith generateFixCommandNoBrand (runAudit snapshotBrand).issues ∧
    brandIssue0.severity = Severity.MEDIUM :=
  ⟨(brand_branch_unreachable_c10 snapshotBrand).1,
   (brand_branch_unreachable_c10 snapshotBrand).2 brandIssue0 (by decide) (by decide)⟩

end Audit
namespace Audit

theorem loopFrom_exhaust (runner : Nat → ℚ) (N : Nat) (hlt : ∀ j, runner j < 100) :
    ∀ (fuel i e : Nat), i + fuel = N + 1 →
      loopFrom runner N i e fuel = (LoopState.EXHAUSTED, e + fuel) := by
  intro fuel
  induction fuel with
  | zero => intro i e _; simp [loopFrom]
  | succ fuel ih =>
    intro i e h
    have hi : i ≤ N := by omega
    unfold loopFrom
    rw [if_pos hi, if_neg (not_le.mpr (hlt i)), ih (i + 1) (e + 1) (by omega)]
    have : e + 1 + fuel = e + (fuel + 1) := by omega
    rw [this]

theorem loopFrom_converge (runner : Nat → ℚ) (N k : Nat)
    (hk100 : 100 ≤ runner k) (hbefore : ∀ j, 1 ≤ j → j < k → runner j < 100) :
    ∀ (fuel i e : Nat), i + fuel = N + 1 → 1 ≤ i → i ≤ k → k ≤ N →
      loopFrom runner N i e fuel = (LoopState.CONVERGED, e + (k - i + 1)) := by
  intro fuel
  induction fuel with
  | zero => intro i e h h1 h2 h3; omega
  | succ fuel ih =>
    intro i e h h1 h2 h3
    have hi : i ≤ N := by omega
    unfold loopFrom
    rw [if_pos hi]
    by_cases hik : i = k
    · rw [hik, if_pos hk100]
      have : k - k + 1 = 1 := by omega
      rw [this]
    · rw [if_neg (not_le.mpr (hbefore i h1 (by omega))),
        ih (i + 1) (e + 1) (by omega) (by omega) (by omega) h3]
      have : e + 1 + (k - (i + 1) + 1) = e + (k - i + 1) := by omega
      rw [this]

/-- C3: the bounded iteration loop of `main` executes the runner exactly
`maxIterations` times and ends EXHAUSTED when every iteration's pass rate is
below 100.0, and ends CONVERGED after exactly `k` executions when iteration
`k ≤ maxIterations` is the first to reach a pass rate of at least 100.0. -/
theorem iteration_controller_c3 (runner : Nat → ℚ) (N : Nat) (hN : 1 ≤ N) :
    ((∀ j, runner j < 100) → mainLoop runner N = (LoopState.EXHAUSTED, N)) ∧
    (∀ k, 1 ≤ k → k ≤ N → 100 ≤ runner k →
      (∀ j, 1 ≤ j → j < k → runner j < 100) →
      mainLoop runner N = (LoopState.CONVERGED, k)) := by
  constructor
  · intro hlt
    unfold mainLoop
    rw [loopFrom_exhaust runner N hlt N 1 0 (by omega)]
    simp
  · intro k hk1 hkN h100 hbefore
    unfold mainLoop
    rw [loopFrom_converge runner N k h100 hbefore N 1 0 (by omega) (by omega) hk1 hkN]
    have : 0 + (k - 1 + 1) = k := by omega
    rw [this]

/-- Witness for C3 at `maxIterations = 3` with the spec's two runners. -/
theorem iteration_controller_c3_witness :
    mainLoop runner50 3 = (LoopState.EXHAUSTED, 3) ∧
      mainLoop runnerConv2 3 = (LoopState.CONVERGED, 2) := by
  constructor
  · exact (iteration_controller_c3 runner50 3 (by norm_num)).1
      (fun j => by norm_num [runner50])
  · exact (iteration_controller_c3 runnerConv2 3 (by norm_num)).2 2 (by norm_num)
      (by norm_num) (by norm_num [runnerConv2])
      (fun j h1 h2 => by
        have : j = 1 := by omega
        subst this
        norm_num [runnerConv2])

/-- C4 (code bug): an issue with category `Dependencies` and a description
containing `Missing` — exactly what `_check_missing_dependencies` emits for a
missing required dependency, and the only issues the "# Fix missing
dependency" template text describes — produces no fix string, because
`_generate_fix_command` gates that template on category `TypeScript`.  The
audit of `snapshotNoWouter` emits exactly this issue and `generate_fixes`
returns the empty list. -/
theorem fix_generator_c4_bug :
    (runAudit snapshotNoWouter).issues = [depMissingIssue] ∧
      depMissingIssue.category = "Dependencies" ∧
      depMissingIssue.severity = Severity.HIGH ∧
      strContains depMissingIssue.description "Missing" = true ∧
      generateFixCommand depMissingIssue = none ∧
      generateFixes (runAudit snapshotNoWouter).issues = [] := by
  decide

end Audit
namespace Audit

theorem splitOnChar_ne_nil (sep : Char) (cs : List Char) : splitOnChar sep cs ≠ [] := by
  cases cs with
  | nil => simp [splitOnChar]
  | cons c rest =>
    unfold splitOnChar
    split
    · simp
    · split <;> simp

theorem joinChar_singleton (sep : Char) (p : List Char) : joinChar sep [p] = p := rfl

theorem joinChar_cons_cons (sep : Char) (p q : List Char) (l : List (List Char)) :
    joinChar sep (p :: q :: l) = p ++ sep :: joinChar sep (q :: l) := rfl

theorem joinChar_splitOnChar (sep : Char) (cs : List Char) :
    joinChar sep (splitOnChar sep cs) = cs := by
  induction cs with
  | nil => rfl
  | cons c rest ih =>
    unfold splitOnChar
    by_cases h : c = sep
    · rw [if_pos h]
      rcases hsp : splitOnChar sep rest with _ | ⟨p, ps⟩
      · exact absurd hsp (splitOnChar_ne_nil sep rest)
      · rw [hsp] at ih
        rw [joinChar_cons_cons, ih]
        simp [h]
    · rw [if_neg h]
      rcases hsp : splitOnChar sep rest with _ | ⟨p, ps⟩
      · exact absurd hsp (splitOnChar_ne_nil sep rest)
      · rw [hsp] at ih
        cases ps with
        | nil =>
          rw [joinChar_singleton] at ih
          rw [joinChar_singleton, ih]
        | cons q qs =>
          rw [joinChar_cons_cons] at ih
          rw [joinChar_cons_cons, ← ih]
          simp

theorem joinChar_append_last (sep : Char) (y e : List Char) :
    ∀ (xs : List (List Char)),
      joinChar sep (xs ++ [y ++ e]) = joinChar sep (xs ++ [y]) ++ e := by
  intro xs
  induction xs with
  | nil => simp [joinChar_singleton]
  | cons p ps ih =>
    cases ps with
    | nil => simp [joinChar_cons_cons, joinChar_singleton, List.append_assoc]
    | cons q qs =>
      simp only [List.cons_append] at ih ⊢
      rw [joinChar_cons_cons, joinChar_cons_cons, ih]
      simp [List.append_assoc]

theorem lastDotIdxAux_no_dot :
    ∀ (cs : List Char) (i : Nat) (best : Option Nat),
      cs.contains '.' = false → lastDotIdxAux i best cs = best := by
  intro cs
  induction cs with
  | nil => intro i best _; rfl
  | cons c rest ih =>
    intro i best h
    simp only [List.contains_cons, Bool.or_eq_false_iff] at h
    obtain ⟨h1, h2⟩ := h
    unfold lastDotIdxAux
    have hne : ¬ (c = '.') := by
      intro hc
      rw [hc] at h1
      simp at h1
    rw [if_neg hne]
    exact ih (i + 1) best h2

theorem replaceSuffixC_no_dot (name ext : List Char) (h : name.contains '.' = false) :
    replaceSuffixC name ext = name ++ ext := by
  unfold replaceSuffixC lastDotIdx
  rw [lastDotIdxAux_no_dot name 0 none h]

theorem dropLast_append_getLastD (l : List (List Char)) (h : l ≠ []) :
    l.dropLast ++ [l.getLastD []] = l := by
  rw [List.getLastD_eq_getLast? , List.getLast?_eq_getLast l h]
  exact List.dropLast_append_getLast h

theorem withSuffixC_no_dot (cs ext : List Char)
    (h : (lastSegC cs).contains '.' = false) :
    withSuffixC cs ext = cs ++ ext := by
  unfold lastSegC at h
  show joinSlash ((splitSlash cs).dropLast ++
      [replaceSuffixC ((splitSlash cs).getLastD []) ext]) = cs ++ ext
  rw [replaceSuffixC_no_dot _ _ h]
  unfold joinSlash splitSlash
  rw [joinChar_append_last, dropLast_append_getLastD _ (splitOnChar_ne_nil '/' cs),
    joinChar_splitOnChar]

end Audit
namespace Audit

/-- C6 counterexample: for the import `./foo.helpers` in `src/a.ts`, when the
file `src/foo.helpers.ts` — a candidate of the claim's appended-extension
list — exists, the check still emits its HIGH issue, because `with_suffix`
replaces the `.helpers` suffix and probes `src/foo.ts` instead. -/
theorem import_resolution_c6_counterexample :
    (checkFileImports fsC6 fileC6 emptyResults).issues =
      [importNotFoundIssue "src/a.ts" 1 "./foo.helpers"] ∧
      ((specImportCandidatesC (resolveC (dirNameC ("src/a.ts").toList)
          ("./foo.helpers").toList)).map String.mk).any fsC6 = true := by
  decide

/-- C6 amended: the check emits its HIGH issue for a relative import exactly
when none of the *source's* candidates exist — the exact resolved path, the
path with its final suffix *replaced* by `.ts` and by `.tsx` (appended only
when the final segment has no suffix), and `index.ts`/`index.tsx` inside the
path-as-directory; when the resolved path's last segment contains no dot,
this candidate list coincides with the claim's appended-extension list. -/
theorem import_resolution_c6_amended (fs : String → Bool) (filePath : String)
    (lineno : Nat) (p : String) (r : AuditResults) :
    ((handleImport fs filePath lineno p r).issues =
      r.issues ++
        (if (startsWithS p "./" || startsWithS p "../") &&
            !(((importCandidatesC (resolveC (dirNameC filePath.toList) p.toList)).map
              String.mk).any fs) then
          [importNotFoundIssue filePath lineno p]
        else [])) ∧
    ((lastSegC (resolveC (dirNameC filePath.toList) p.toList)).contains '.' = false →
      importCandidatesC (resolveC (dirNameC filePath.toList) p.toList) =
        specImportCandidatesC (resolveC (dirNameC filePath.toList) p.toList)) := by
  constructor
  · unfold handleImport
    by_cases h1 : (startsWithS p "./" || startsWithS p "../") = true
    · rw [if_pos h1]
      dsimp only
      by_cases h2 :
          (((importCandidatesC (resolveC (dirNameC filePath.toList) p.toList)).map
            String.mk).any fs) = true
      · rw [if_pos h2]
        have hfalse : ((startsWithS p "./" || startsWithS p "../") &&
            !(((importCandidatesC (resolveC (dirNameC filePath.toList) p.toList)).map
              String.mk).any fs)) = false := by
          rw [h1, h2]
          rfl
        rw [hfalse]
        simp
      · rw [if_neg h2]
        simp only [h1, Bool.true_and]
        rw [if_pos (by simpa using h2)]
        simp [addIssue, importNotFoundIssue]
    · rw [if_neg h1]
      simp only [Bool.not_eq_true] at h1
      simp [h1]
  · intro h
    unfold importCandidatesC specImportCandidatesC
    rw [withSuffixC_no_dot _ _ h, withSuffixC_no_dot _ _ h]

/-- Witness for C6 (amended) at the import `./foo` from `src/pages/a.ts`. -/
theorem import_resolution_c6_witness :
    importCandidatesC (resolveC (dirNameC ("src/pages/a.ts").toList) ("./foo").toList) =
      specImportCandidatesC (resolveC (dirNameC ("src/pages/a.ts").toList) ("./foo").toList) :=
  (import_resolution_c6_amended (fun _ => false) "src/pages/a.ts" 1 "./foo"
    emptyResults).2 (by decide)

end Audit
namespace Audit

theorem parseTypescriptError_issues (line : List Char) (r : AuditResults) :
    (parseTypescriptError line r).issues =
      r.issues ++ ((tsMatchC line).map (fun t => tsDiagIssue t.1 t.2.1 t.2.2)).toList := by
  unfold parseTypescriptError
  rcases tsMatchC line with _ | ⟨fp, n, msg⟩
  · simp
  · simp [addIssue, tsDiagIssue]

theorem tsFold_issues :
    ∀ (lines : List (List Char)) (r : AuditResults),
      (lines.foldl (fun acc line =>
        if !(trimC line).isEmpty && !("Found".toList.isPrefixOf line) then
          parseTypescriptError line acc
        else acc) r).issues = r.issues ++ lines.filterMap tsLineEmit := by
  intro lines
  induction lines with
  | nil => intro r; simp
  | cons line lines ih =>
    intro r
    simp only [List.foldl_cons, List.filterMap_cons]
    rw [ih]
    by_cases hc : (!(trimC line).isEmpty && !("Found".toList.isPrefixOf line)) = true
    · rw [if_pos hc, parseTypescriptError_issues]
      unfold tsLineEmit
      rw [if_pos hc]
      rcases tsMatchC line with _ | t <;> simp [List.append_assoc]
    · rw [if_neg hc]
      unfold tsLineEmit
      rw [if_neg hc]

/-- C8 counterexample: a stderr line that matches the diagnostic pattern but
begins with `Found` is dropped by the `startswith('Found')` guard, so a
pattern-matching line yields no issue, contrary to the claim. -/
theorem ts_compilation_c8_counterexample :
    tsMatch foundLine = some ("FoundPage.tsx", 3, "Cannot find name") ∧
      ("Found".toList.isPrefixOf foundLine.toList) = true ∧
      (checkTypescriptCompilation snapshotFoundLine emptyResults).issues = [] := by
  decide

/-- C8 amended: a failed type-checker invocation yields exactly one CRITICAL
issue; on a nonzero exit code, each stderr line yields one CRITICAL issue iff
it is non-blank, does not start with `Found`, and matches the diagnostic
pattern `<path>(<line>,<col>): error TS<code>: <message>` — all other lines,
including pattern-matching lines that begin with `Found`, are silently
dropped. -/
theorem ts_compilation_c8_amended (s : Snapshot) (r : AuditResults) (e : String)
    (rc : Int) (stderr : String) :
    (s.tscRun = Except.error e →
      (checkTypescriptCompilation s r).issues = r.issues ++ [tscFailIssue e]) ∧
    (tscFailIssue e).severity = Severity.CRITICAL ∧
    (s.tscRun = Except.ok (rc, stderr) → rc ≠ 0 →
      (checkTypescriptCompilation s r).issues =
        r.issues ++ (splitOnChar '\n' stderr.toList).filterMap tsLineEmit) ∧
    (∀ line, tsLineEmit line = none ↔
      ((trimC line).isEmpty = true ∨ ("Found".toList.isPrefixOf line) = true ∨
        tsMatchC line = none)) ∧
    (∀ line i, tsLineEmit line = some i → i.severity = Severity.CRITICAL) := by
  refine ⟨?_, rfl, ?_, ?_, ?_⟩
  · intro he
    unfold checkTypescriptCompilation
    rw [he]
    simp [addIssue, tscFailIssue]
  · intro hok hrc
    unfold checkTypescriptCompilation
    rw [hok]
    dsimp only
    rw [if_pos hrc]
    exact tsFold_issues (splitOnChar '\n' stderr.toList) r
  · intro line
    unfold tsLineEmit
    by_cases hc : (!(trimC line).isEmpty && !("Found".toList.isPrefixOf line)) = true
    · rw [if_pos hc]
      simp only [Bool.and_eq_true, Bool.not_eq_true'] at hc
      obtain ⟨h1, h2⟩ := hc
      rw [h1, h2]
      simp [Option.map_eq_none']
    · rw [if_neg hc]
      have hor : (trimC line).isEmpty = true ∨ ("Found".toList.isPrefixOf line) = true := by
        by_contra hcon
        push_neg at hcon
        obtain ⟨ha, hb⟩ := hcon
        simp only [Bool.not_eq_true] at ha hb
        apply hc
        rw [ha, hb]
        rfl
      constructor
      · intro _
        rcases hor with h | h
        · exact Or.inl h
        · exact Or.inr (Or.inl h)
      · intro _
        rfl
  · intro line i hi
    unfold tsLineEmit at hi
    by_cases hc : (!(trimC line).isEmpty && !("Found".toList.isPrefixOf line)) = true
    · rw [if_pos hc] at hi
      rcases ht : tsMatchC line with _ | t
      · rw [ht] at hi; simp at hi
      · rw [ht] at hi
        simp at hi
        rw [← hi]
        rfl
    · rw [if_neg hc] at hi
      simp at hi

/-- Witness for C8 (amended): the failed-invocation branch at
`snapshotTscError` and the nonzero-exit branch at `snapshotFoundLine`. -/
theorem ts_compilation_c8_witness :
    (checkTypescriptCompilation snapshotTscError emptyResults).issues =
      emptyResults.issues ++ [tscFailIssue "boom"] ∧
    (checkTypescriptCompilation snapshotFoundLine emptyResults).issues =
      emptyResults.issues ++ (splitOnChar '\n' foundLine.toList).filterMap tsLineEmit :=
  ⟨(ts_compilation_c8_amended snapshotTscError emptyResults "boom" 0 "").1 rfl,
   (ts_compilation_c8_amended snapshotFoundLine emptyResults "" 2 foundLine).2.2.1 rfl
     (by decide)⟩

end Audit
